import Mathlib

/-!
Verification development for the HCP Packer webhook handler for AWS
(`function/lambda_function.py`).  The Python source is shallowly embedded:
pure helpers become Lean functions, the AWS / HTTP side effects become an
explicit environment of response functions plus an emitted call trace, and
Python exceptions become an `Except` error type.
-/

set_option maxHeartbeats 1000000
set_option maxRecDepth 100000

namespace PackerWebhook

/-! ## Bytes, 64-bit words, SHA-512 and HMAC-SHA512

The Python code verifies webhook signatures with
`hmac.new(secret, message, hashlib.sha512).hexdigest()`.  We embed the
actual FIPS 180-4 SHA-512 and RFC 2104 HMAC constructions over byte lists,
with 64-bit words represented as naturals reduced mod `2 ^ 64`.
-/

/-- A byte is a natural number below 256. -/
abbrev Byte := Nat

/-- The modulus of 64-bit word arithmetic. -/
def w64 : Nat := 2 ^ 64

/-- 64-bit addition. -/
def wadd (a b : Nat) : Nat := (a + b) % w64

/-- 64-bit complement. -/
def wnot (a : Nat) : Nat := Nat.xor a (w64 - 1)

/-- Right rotation of a 64-bit word by `n` places. -/
def rotr (n a : Nat) : Nat := (a >>> n) ||| ((a <<< (64 - n)) % w64)

/-- SHA-512 choice function. -/
def ch (e f g : Nat) : Nat := Nat.xor (Nat.land e f) (Nat.land (wnot e) g)

/-- SHA-512 majority function. -/
def maj (a b c : Nat) : Nat :=
  Nat.xor (Nat.land a b) (Nat.xor (Nat.land a c) (Nat.land b c))

/-- SHA-512 big sigma 0. -/
def bsig0 (a : Nat) : Nat := Nat.xor (rotr 28 a) (Nat.xor (rotr 34 a) (rotr 39 a))

/-- SHA-512 big sigma 1. -/
def bsig1 (e : Nat) : Nat := Nat.xor (rotr 14 e) (Nat.xor (rotr 18 e) (rotr 41 e))

/-- SHA-512 small sigma 0. -/
def ssig0 (x : Nat) : Nat := Nat.xor (rotr 1 x) (Nat.xor (rotr 8 x) (x >>> 7))

/-- SHA-512 small sigma 1. -/
def ssig1 (x : Nat) : Nat := Nat.xor (rotr 19 x) (Nat.xor (rotr 61 x) (x >>> 6))

/-- A 64-bit word from its two 32-bit halves. -/
def w2 (hi lo : Nat) : Nat := hi * 0x100000000 + lo

/-- The 80 SHA-512 round constants of FIPS 180-4, each written as its
two 32-bit halves. -/
def K512 : Array Nat := #[
  w2 0x428a2f98 0xd728ae22, w2 0x71374491 0x23ef65cd,
  w2 0xb5c0fbcf 0xec4d3b2f, w2 0xe9b5dba5 0x8189dbbc,
  w2 0x3956c25b 0xf348b538, w2 0x59f111f1 0xb605d019,
  w2 0x923f82a4 0xaf194f9b, w2 0xab1c5ed5 0xda6d8118,
  w2 0xd807aa98 0xa3030242, w2 0x12835b01 0x45706fbe,
  w2 0x243185be 0x4ee4b28c, w2 0x550c7dc3 0xd5ffb4e2,
  w2 0x72be5d74 0xf27b896f, w2 0x80deb1fe 0x3b1696b1,
  w2 0x9bdc06a7 0x25c71235, w2 0xc19bf174 0xcf692694,
  w2 0xe49b69c1 0x9ef14ad2, w2 0xefbe4786 0x384f25e3,
  w2 0x0fc19dc6 0x8b8cd5b5, w2 0x240ca1cc 0x77ac9c65,
  w2 0x2de92c6f 0x592b0275, w2 0x4a7484aa 0x6ea6e483,
  w2 0x5cb0a9dc 0xbd41fbd4, w2 0x76f988da 0x831153b5,
  w2 0x983e5152 0xee66dfab, w2 0xa831c66d 0x2db43210,
  w2 0xb00327c8 0x98fb213f, w2 0xbf597fc7 0xbeef0ee4,
  w2 0xc6e00bf3 0x3da88fc2, w2 0xd5a79147 0x930aa725,
  w2 0x06ca6351 0xe003826f, w2 0x14292967 0x0a0e6e70,
  w2 0x27b70a85 0x46d22ffc, w2 0x2e1b2138 0x5c26c926,
  w2 0x4d2c6dfc 0x5ac42aed, w2 0x53380d13 0x9d95b3df,
  w2 0x650a7354 0x8baf63de, w2 0x766a0abb 0x3c77b2a8,
  w2 0x81c2c92e 0x47edaee6, w2 0x92722c85 0x1482353b,
  w2 0xa2bfe8a1 0x4cf10364, w2 0xa81a664b 0xbc423001,
  w2 0xc24b8b70 0xd0f89791, w2 0xc76c51a3 0x0654be30,
  w2 0xd192e819 0xd6ef5218, w2 0xd6990624 0x5565a910,
  w2 0xf40e3585 0x5771202a, w2 0x106aa070 0x32bbd1b8,
  w2 0x19a4c116 0xb8d2d0c8, w2 0x1e376c08 0x5141ab53,
  w2 0x2748774c 0xdf8eeb99, w2 0x34b0bcb5 0xe19b48a8,
  w2 0x391c0cb3 0xc5c95a63, w2 0x4ed8aa4a 0xe3418acb,
  w2 0x5b9cca4f 0x7763e373, w2 0x682e6ff3 0xd6b2b8a3,
  w2 0x748f82ee 0x5defb2fc, w2 0x78a5636f 0x43172f60,
  w2 0x84c87814 0xa1f0ab72, w2 0x8cc70208 0x1a6439ec,
  w2 0x90befffa 0x23631e28, w2 0xa4506ceb 0xde82bde9,
  w2 0xbef9a3f7 0xb2c67915, w2 0xc67178f2 0xe372532b,
  w2 0xca273ece 0xea26619c, w2 0xd186b8c7 0x21c0c207,
  w2 0xeada7dd6 0xcde0eb1e, w2 0xf57d4f7f 0xee6ed178,
  w2 0x06f067aa 0x72176fba, w2 0x0a637dc5 0xa2c898a6,
  w2 0x113f9804 0xbef90dae, w2 0x1b710b35 0x131c471b,
  w2 0x28db77f5 0x23047d84, w2 0x32caab7b 0x40c72493,
  w2 0x3c9ebe0a 0x15c9bebc, w2 0x431d67c4 0x9c100d4c,
  w2 0x4cc5d4be 0xcb3e42b6, w2 0x597f299c 0xfc657e2a,
  w2 0x5fcb6fab 0x3ad6faec, w2 0x6c44198c 0x4a475817]

/-- The SHA-512 hash state: eight 64-bit words. -/
structure HashSt where
  a : Nat
  b : Nat
  c : Nat
  d : Nat
  e : Nat
  f : Nat
  g : Nat
  h : Nat
deriving Repr, DecidableEq

/-- The SHA-512 initial hash value of FIPS 180-4, each word written as
its two 32-bit halves. -/
def sha512Init : HashSt :=
  ⟨w2 0x6a09e667 0xf3bcc908, w2 0xbb67ae85 0x84caa73b,
   w2 0x3c6ef372 0xfe94f82b, w2 0xa54ff53a 0x5f1d36f1,
   w2 0x510e527f 0xade682d1, w2 0x9b05688c 0x2b3e6c1f,
   w2 0x1f83d9ab 0xfb41bd6b, w2 0x5be0cd19 0x137e2179⟩

/-- Interpret a list of bytes as a big-endian word. -/
def bytesToWord (bs : List Byte) : Nat := bs.foldl (fun acc b => acc * 256 + b) 0

/-- The 16 big-endian 64-bit words of a 128-byte block. -/
def blockWords (block : List Byte) : Array Nat :=
  ((List.range 16).map (fun i => bytesToWord ((block.drop (8 * i)).take 8))).toArray

/-- Extend the 16 block words to the 80-entry SHA-512 message schedule. -/
def msgSchedule (ws : Array Nat) : Array Nat :=
  (List.range 64).foldl
    (fun w _ =>
      let n := w.size
      w.push (wadd (wadd (ssig1 w[n - 2]!) w[n - 7]!)
                   (wadd (ssig0 w[n - 15]!) w[n - 16]!)))
    ws

/-- One SHA-512 compression round. -/
def sha512Round (k w : Nat) (s : HashSt) : HashSt :=
  let t1 := wadd s.h (wadd (bsig1 s.e) (wadd (ch s.e s.f s.g) (wadd k w)))
  let t2 := wadd (bsig0 s.a) (maj s.a s.b s.c)
  ⟨wadd t1 t2, s.a, s.b, s.c, wadd s.d t1, s.e, s.f, s.g⟩

/-- Compress one 128-byte block into the hash state. -/
def sha512Compress (st : HashSt) (block : List Byte) : HashSt :=
  let w := msgSchedule (blockWords block)
  let s := (List.range 80).foldl (fun s i => sha512Round K512[i]! w[i]! s) st
  ⟨wadd s.a st.a, wadd s.b st.b, wadd s.c st.c, wadd s.d st.d,
   wadd s.e st.e, wadd s.f st.f, wadd s.g st.g, wadd s.h st.h⟩

/-- SHA-512 padding: append `0x80`, zeros, and the 128-bit big-endian bit
length, reaching a multiple of 128 bytes. -/
def sha512Pad (msg : List Byte) : List Byte :=
  let bitLen := 8 * msg.length
  let zeros := (128 - ((msg.length + 17) % 128)) % 128
  msg ++ [0x80] ++ List.replicate zeros 0 ++
    (List.range 16).map (fun i => (bitLen >>> (8 * (15 - i))) % 256)

/-- Split a byte list into 128-byte blocks, with the list length as
structural fuel (each step consumes at least one byte). -/
def toBlocksFuel : Nat → List Byte → List (List Byte)
  | 0, _ => []
  | _, [] => []
  | fuel + 1, b :: bs => ((b :: bs).take 128) :: toBlocksFuel fuel ((b :: bs).drop 128)

/-- Split a byte list into 128-byte blocks. -/
def toBlocks (l : List Byte) : List (List Byte) := toBlocksFuel l.length l

/-- The eight big-endian bytes of a 64-bit word. -/
def wordBytes (w : Nat) : List Byte :=
  (List.range 8).map (fun i => (w >>> (8 * (7 - i))) % 256)

/-- SHA-512 of a byte list, as the 64 digest bytes. -/
def sha512 (msg : List Byte) : List Byte :=
  let fin := (toBlocks (sha512Pad msg)).foldl sha512Compress sha512Init
  wordBytes fin.a ++ wordBytes fin.b ++ wordBytes fin.c ++ wordBytes fin.d ++
  wordBytes fin.e ++ wordBytes fin.f ++ wordBytes fin.g ++ wordBytes fin.h

/-- The lowercase hexadecimal digit for a value below 16. -/
def hexDigit (n : Nat) : Char := "0123456789abcdef".data.getD n '0'

/-- The two lowercase hex digits of a byte. -/
def byteHex (b : Byte) : List Char := [hexDigit (b / 16), hexDigit (b % 16)]

/-- Lowercase hex rendering of a byte list. -/
def bytesToHex (bs : List Byte) : String := ⟨bs.foldr (fun b s => byteHex b ++ s) []⟩

/-- HMAC-SHA512 (RFC 2104 with a 128-byte block), as the 64 digest bytes. -/
def hmacSha512 (key msg : List Byte) : List Byte :=
  let k0 := if key.length > 128 then sha512 key else key
  let kp := k0 ++ List.replicate (128 - k0.length) 0
  let ipadK := kp.map (Nat.xor 0x36)
  let opadK := kp.map (Nat.xor 0x5c)
  sha512 (opadK ++ sha512 (ipadK ++ msg))

/-- The lowercase-hex HMAC-SHA512 digest, as produced by
`hmac.new(secret, message, hashlib.sha512).hexdigest()`. -/
def hmacSha512Hex (key msg : List Byte) : String := bytesToHex (hmacSha512 key msg)

/-! ## Data model

Structured values taken from the webhook JSON bodies, as the Python code
accesses them.  Optional fields model dictionary keys whose absence the
code can observe as a `KeyError`.
-/

/-- A Python exception value, as the handlers can observe it. -/
inductive PyErr where
  | clientError (code : String) (text : String)
  | keyError (key : String)
  | exn (text : String)
deriving Repr, DecidableEq

/-- The rendering `str(e)` of an exception. -/
def PyErr.toText : PyErr → String
  | .clientError _ t => t
  | .keyError k => "'" ++ k ++ "'"
  | .exn t => t

deriving instance DecidableEq for Except

/-- One image of a build, from `build["images"]`. -/
structure BuildImage where
  image_id : String
  region : String
deriving Repr, DecidableEq

/-- One build descriptor, from the `builds` list. -/
structure Build where
  id : String
  cloud_provider : String
  images : List BuildImage
deriving Repr, DecidableEq

/-- The `bucket` object of the event payload. -/
structure Bucket where
  slug : String
deriving Repr, DecidableEq

/-- The `iteration` object of the event payload. -/
structure Iteration where
  fingerprint : String
  version : String
  id : String
  revocation_author : String
  revocation_message : String
deriving Repr, DecidableEq

/-- The `eventPayload` object.  `builds` is optional: the revoke and
restore webhooks omit it. -/
structure Payload where
  organization_id : String
  project_id : String
  bucket : Bucket
  iteration : Iteration
  builds : Option (List Build)
deriving Repr, DecidableEq

/-- The parsed webhook body.  `eventAction` is optional: a body without the
key makes `body["eventAction"]` raise a `KeyError`. -/
structure WebhookBody where
  eventAction : Option String
  eventPayload : Option Payload
deriving Repr, DecidableEq

/-- An extracted image record as built by `return_image_id`. -/
structure ExtractedImage where
  id : String
  region : String
  build_id : String
deriving Repr, DecidableEq

/-- An EBS snapshot as returned by `describe_snapshots`. -/
structure Snapshot where
  snapshotId : String
  description : String
deriving Repr, DecidableEq

/-- The resource a per-action result row refers to: the `ami_id` or the
`snapshot_id` key of the result dictionary. -/
inductive ActionTarget where
  | ami (id : String)
  | snapshot (id : String)
deriving Repr, DecidableEq

/-- One per-mutation result row appended to `result["actions"]`. -/
structure ActionResult where
  target : ActionTarget
  region : String
  status : String
  message : String
deriving Repr, DecidableEq

/-- A response status code value: the Python code returns the integer
`200`/`400`/`403`/`500` everywhere except `verify`, which returns the
string `"200"`. -/
inductive SCode where
  | int (n : Nat)
  | str (s : String)
deriving Repr, DecidableEq

/-- A response body: either a plain text string or the `json.dumps` of the
accumulated `{"actions": [...]}` result. -/
inductive RespBody where
  | text (s : String)
  | jsonActions (l : List ActionResult)
deriving Repr, DecidableEq

/-- The action results reported by a response body, if any. -/
def RespBody.actionsOf : RespBody → Option (List ActionResult)
  | .text _ => none
  | .jsonActions l => some l

/-- The `{"statusCode": ..., "body": ...}` dictionary returned by every
handler. -/
structure Response where
  statusCode : SCode
  body : RespBody
deriving Repr, DecidableEq

/-! ## The cloud environment

Every boto3 / HTTP side effect is modelled by an environment of response
functions (keyed by region and arguments), and handlers additionally emit
the trace of EC2 API calls they issue, in order.
-/

/-- One EC2 API call, with the region of the client that issued it. -/
inductive Ec2Call where
  | createTags (region ami : String) (tags : List (String × String))
  | enableImageDeprecation (region ami : String) (deprecateAt : Nat)
  | disableImageDeprecation (region ami : String)
  | deleteTags (region ami : String) (keys : List String)
  | deregisterImage (region ami : String)
  | describeSnapshots (region pattern : String)
  | deleteSnapshot (region snap : String)
deriving Repr, DecidableEq

/-- The external world: each outbound call is resolved to a result or an
exception.  `getBuilds` is the outcome of the authenticated registry fetch
performed by `get_builds` for the revoke and restore webhooks. -/
structure Ec2Env where
  createTags : String → String → List (String × String) → Except PyErr Unit
  enableImageDeprecation : String → String → Nat → Except PyErr Unit
  disableImageDeprecation : String → String → Except PyErr Unit
  deleteTags : String → String → List String → Except PyErr Unit
  deregisterImage : String → String → Except PyErr Unit
  describeSnapshots : String → String → Except PyErr (List Snapshot)
  deleteSnapshot : String → String → Except PyErr Unit
  getBuilds : Except PyErr (List Build)

/-! ## String helpers

Executable stand-ins for the Python string operations used by the source
(`str.startswith`, substring containment via the snapshot filter), defined
over character lists so they reduce in the kernel.
-/

/-- Whether the first list occurs at the head of the second. -/
def leadsWith [BEq α] : List α → List α → Bool
  | [], _ => true
  | _ :: _, [] => false
  | p :: ps, x :: xs => p == x && leadsWith ps xs

/-- Python `s.startswith(pre)`. -/
def pyStartsWith (s pre : String) : Bool := leadsWith pre.data s.data

/-- Whether `pat` occurs as a contiguous sublist. -/
def containsSub [BEq α] (pat : List α) : List α → Bool
  | [] => pat.isEmpty
  | c :: rest => leadsWith pat (c :: rest) || containsSub pat rest

/-- Substring containment on strings. -/
def strContains (s pat : String) : Bool := containsSub pat.data s.data

/-! ## Helper functions of the source -/

/-- `return_image_id(builds, provider)`: nested loops appending one record
per image of each build whose `cloud_provider` equals `provider`. -/
def return_image_id : List Build → String → List ExtractedImage
  | [], _ => []
  | build :: rest, provider =>
    (if build.cloud_provider = provider then
       build.images.map (fun image =>
         { id := image.image_id, region := image.region, build_id := build.id })
     else []) ++ return_image_id rest provider

/-- `verify_hmac(event)`: recompute the HMAC-SHA512 hex digest of the raw
body under the resolved signing key and compare it (via
`hmac.compare_digest`, semantically string equality) with the signature
header value. -/
def verify_hmac (signingKey rawBody : List Byte) (signature : String) : Bool :=
  hmacSha512Hex signingKey rawBody == signature

/-- `get_builds(body)`: reads the payload fields to address the registry
iteration endpoint, then returns the fetched builds; a missing payload is a
`KeyError`, a failed fetch is the raised `Exception` carried by the
environment. -/
def get_builds (env : Ec2Env) (body : WebhookBody) : Except PyErr (List Build) :=
  match body.eventPayload with
  | none => .error (.keyError "eventPayload")
  | some _ => env.getBuilds

/-- The response a handler builds from the outcome of its loop: `return
{"statusCode": 200, "body": json.dumps(result)}` on success, and the outer
`except Exception as e: return {"statusCode": 500, "body": f"Error:
{str(e)}"}` on an uncaught exception. -/
def mkResp : Except PyErr (List ActionResult) → Response
  | .ok acts => ⟨.int 200, .jsonActions acts⟩
  | .error e => ⟨.int 500, .text ("Error: " ++ e.toText)⟩

/-! ## Event action handlers

Each handler returns the ordered trace of EC2 calls it issued together
with its HTTP response.  The per-image loop bodies are split into a step
function (the `try` block) and a loop function carrying the `except
botocore.exceptions.ClientError` classification of the source.
-/

/-- `verify()`: the webhook verification handshake.  Note the source
returns the status code as the string `"200"`. -/
def verify : Response := ⟨.str "200", .text "Verification successful!"⟩

/-- The four metadata tags attached by `complete`. -/
def completeTags (p : Payload) (ami : ExtractedImage) : List (String × String) :=
  [("HCPPackerBucket", p.bucket.slug),
   ("HCPPackerIterationFingerprint", p.iteration.fingerprint),
   ("HCPPackerIterationVersion", p.iteration.version),
   ("HCPPackerBuildID", ami.build_id)]

/-- The `try` block of the `complete` loop: one `create_tags` call. -/
def completeStep (env : Ec2Env) (p : Payload) (ami : ExtractedImage) :
    List Ec2Call × Except PyErr Unit :=
  ([Ec2Call.createTags ami.region ami.id (completeTags p ami)],
   env.createTags ami.region ami.id (completeTags p ami))

/-- The `for ami in amis` loop of `complete`, with the source error
classification: a `ClientError` whose code starts with `InvalidAMIID`
records `Skipped` and continues, everything else re-raises. -/
def completeGo (env : Ec2Env) (p : Payload) :
    List ExtractedImage → List Ec2Call × Except PyErr (List ActionResult)
  | [] => ([], .ok [])
  | ami :: rest =>
    match (completeStep env p ami).2 with
    | .ok _ =>
      ((completeStep env p ami).1 ++ (completeGo env p rest).1,
       (completeGo env p rest).2.map (fun acts =>
         ⟨.ami ami.id, ami.region, "Success", "AMI tags added"⟩ :: acts))
    | .error (.clientError code t) =>
      if pyStartsWith code "InvalidAMIID" then
        ((completeStep env p ami).1 ++ (completeGo env p rest).1,
         (completeGo env p rest).2.map (fun acts =>
           ⟨.ami ami.id, ami.region, "Skipped", code⟩ :: acts))
      else ((completeStep env p ami).1, .error (.clientError code t))
    | .error e => ((completeStep env p ami).1, .error e)

/-- `complete(body)`: tag every extracted AWS image; any uncaught exception
becomes the 500 response of the outer `except Exception`. -/
def complete (env : Ec2Env) (body : WebhookBody) : List Ec2Call × Response :=
  match body.eventPayload with
  | none => ([], mkResp (.error (.keyError "eventPayload")))
  | some p =>
    match p.builds with
    | none => ([], mkResp (.error (.keyError "builds")))
    | some builds =>
      let amis := return_image_id builds "aws"
      if amis.length = 0 then ([], ⟨.int 200, .text "No AMIs found in iteration."⟩)
      else
        ((completeGo env p amis).1, mkResp (completeGo env p amis).2)

/-- The three revocation tags attached by `revoke`. -/
def revokeTags (p : Payload) : List (String × String) :=
  [("HCPPackerRevoked", "true"),
   ("HCPPackerRevokedBy", p.iteration.revocation_author),
   ("HCPPackerRevocationMessage", p.iteration.revocation_message)]

/-- The `try` block of the `revoke` loop: `enable_image_deprecation`, then
`create_tags` with the three revocation tags. -/
def revokeStep (env : Ec2Env) (p : Payload) (deprecationTime : Nat)
    (ami : ExtractedImage) : List Ec2Call × Except PyErr Unit :=
  let c1 := Ec2Call.enableImageDeprecation ami.region ami.id deprecationTime
  match env.enableImageDeprecation ami.region ami.id deprecationTime with
  | .error e => ([c1], .error e)
  | .ok _ =>
    let c2 := Ec2Call.createTags ami.region ami.id (revokeTags p)
    match env.createTags ami.region ami.id (revokeTags p) with
    | .error e => ([c1, c2], .error e)
    | .ok _ => ([c1, c2], .ok ())

/-- The `for ami in amis` loop of `revoke`. -/
def revokeGo (env : Ec2Env) (p : Payload) (deprecationTime : Nat) :
    List ExtractedImage → List Ec2Call × Except PyErr (List ActionResult)
  | [] => ([], .ok [])
  | ami :: rest =>
    match (revokeStep env p deprecationTime ami).2 with
    | .ok _ =>
      ((revokeStep env p deprecationTime ami).1 ++ (revokeGo env p deprecationTime rest).1,
       (revokeGo env p deprecationTime rest).2.map (fun acts =>
         ⟨.ami ami.id, ami.region, "Success",
          "AMI deprecation time set to " ++ toString deprecationTime⟩ :: acts))
    | .error (.clientError code t) =>
      if pyStartsWith code "InvalidAMIID" then
        ((revokeStep env p deprecationTime ami).1 ++ (revokeGo env p deprecationTime rest).1,
         (revokeGo env p deprecationTime rest).2.map (fun acts =>
           ⟨.ami ami.id, ami.region, "Skipped", code⟩ :: acts))
      else ((revokeStep env p deprecationTime ami).1, .error (.clientError code t))
    | .error e => ((revokeStep env p deprecationTime ami).1, .error e)

/-- `revoke(body)`: `nowSec` is the invocation start time in seconds; the
source sets `deprecation_time = datetime.now(timezone.utc) +
timedelta(minutes=1)`, that is `nowSec + 60`.  Builds are re-fetched with
`get_builds` because the revoke webhook payload omits them. -/
def revoke (env : Ec2Env) (nowSec : Nat) (body : WebhookBody) :
    List Ec2Call × Response :=
  let deprecationTime := nowSec + 60
  match get_builds env body with
  | .error e => ([], mkResp (.error e))
  | .ok builds =>
    match body.eventPayload with
    | none => ([], mkResp (.error (.keyError "eventPayload")))
    | some p =>
      let amis := return_image_id builds "aws"
      if amis.length = 0 then ([], ⟨.int 200, .text "No AMIs found in iteration."⟩)
      else
        ((revokeGo env p deprecationTime amis).1,
         mkResp (revokeGo env p deprecationTime amis).2)

/-- The three tag keys removed by `restore`. -/
def restoreTagKeys : List String :=
  ["HCPPackerRevoked", "HCPPackerRevokedBy", "HCPPackerRevocationMessage"]

/-- The `try` block of the `restore` loop: `disable_image_deprecation`,
then `delete_tags` for the three revocation tag keys. -/
def restoreStep (env : Ec2Env) (ami : ExtractedImage) :
    List Ec2Call × Except PyErr Unit :=
  let c1 := Ec2Call.disableImageDeprecation ami.region ami.id
  match env.disableImageDeprecation ami.region ami.id with
  | .error e => ([c1], .error e)
  | .ok _ =>
    let c2 := Ec2Call.deleteTags ami.region ami.id restoreTagKeys
    match env.deleteTags ami.region ami.id restoreTagKeys with
    | .error e => ([c1, c2], .error e)
    | .ok _ => ([c1, c2], .ok ())

/-- The `for ami in amis` loop of `restore`. -/
def restoreGo (env : Ec2Env) :
    List ExtractedImage → List Ec2Call × Except PyErr (List ActionResult)
  | [] => ([], .ok [])
  | ami :: rest =>
    match (restoreStep env ami).2 with
    | .ok _ =>
      ((restoreStep env ami).1 ++ (restoreGo env rest).1,
       (restoreGo env rest).2.map (fun acts =>
         ⟨.ami ami.id, ami.region, "Success", "AMI deprecation cleared"⟩ :: acts))
    | .error (.clientError code t) =>
      if pyStartsWith code "InvalidAMIID" then
        ((restoreStep env ami).1 ++ (restoreGo env rest).1,
         (restoreGo env rest).2.map (fun acts =>
           ⟨.ami ami.id, ami.region, "Skipped", code⟩ :: acts))
      else ((restoreStep env ami).1, .error (.clientError code t))
    | .error e => ((restoreStep env ami).1, .error e)

/-- `restore(body)`: disable deprecation and drop the revocation tags;
builds are re-fetched with `get_builds`. -/
def restore (env : Ec2Env) (body : WebhookBody) : List Ec2Call × Response :=
  match get_builds env body with
  | .error e => ([], mkResp (.error e))
  | .ok builds =>
    let amis := return_image_id builds "aws"
    if amis.length = 0 then ([], ⟨.int 200, .text "No AMIs found in iteration."⟩)
    else
      ((restoreGo env amis).1, mkResp (restoreGo env amis).2)

/-- The snapshot deletion loop of `delete`: each `delete_snapshot` call is
outside any `try`, so any failure aborts; each success appends one
snapshot-keyed result row. -/
def deleteSnapsGo (env : Ec2Env) (region amiId : String) :
    List Snapshot → List Ec2Call × Except PyErr (List ActionResult)
  | [] => ([], .ok [])
  | s :: rest =>
    match env.deleteSnapshot region s.snapshotId with
    | .error e => ([Ec2Call.deleteSnapshot region s.snapshotId], .error e)
    | .ok _ =>
      (Ec2Call.deleteSnapshot region s.snapshotId :: (deleteSnapsGo env region amiId rest).1,
       (deleteSnapsGo env region amiId rest).2.map (fun acts =>
         ⟨.snapshot s.snapshotId, region, "Success",
          "Snapshot for AMI " ++ amiId ++ " deleted"⟩ :: acts))

/-- The glob the source passes as the snapshot description filter value,
`f"*{ami_id}*"`. -/
def snapshotGlob (amiId : String) : String := "*" ++ amiId ++ "*"

/-- The whole `delete` loop body for one image: the guarded
`deregister_image` (only this call sits in a `try` with the
`InvalidAMIID` classification), the recorded per-image row, then the
unguarded `describe_snapshots` and snapshot deletions. -/
def deleteImage (env : Ec2Env) (ami : ExtractedImage) :
    List Ec2Call × Except PyErr (List ActionResult) :=
  let cDer := Ec2Call.deregisterImage ami.region ami.id
  let derRes : Except PyErr ActionResult :=
    match env.deregisterImage ami.region ami.id with
    | .ok _ => .ok ⟨.ami ami.id, ami.region, "Success", "AMI deregistered"⟩
    | .error (.clientError code t) =>
      if pyStartsWith code "InvalidAMIID" then
        .ok ⟨.ami ami.id, ami.region, "Skipped", code⟩
      else .error (.clientError code t)
    | .error e => .error e
  match derRes with
  | .error e => ([cDer], .error e)
  | .ok ares =>
    let cDesc := Ec2Call.describeSnapshots ami.region (snapshotGlob ami.id)
    match env.describeSnapshots ami.region (snapshotGlob ami.id) with
    | .error e => ([cDer, cDesc], .error e)
    | .ok snaps =>
      (cDer :: cDesc :: (deleteSnapsGo env ami.region ami.id snaps).1,
       (deleteSnapsGo env ami.region ami.id snaps).2.map (fun acts => ares :: acts))

/-- The `for ami in amis` loop of `delete`. -/
def deleteGo (env : Ec2Env) :
    List ExtractedImage → List Ec2Call × Except PyErr (List ActionResult)
  | [] => ([], .ok [])
  | ami :: rest =>
    match (deleteImage env ami).2 with
    | .error e => ((deleteImage env ami).1, .error e)
    | .ok acts =>
      ((deleteImage env ami).1 ++ (deleteGo env rest).1,
       (deleteGo env rest).2.map (fun acts2 => acts ++ acts2))

/-- `delete(body)`: deregister every extracted AWS image and delete the
snapshots whose description matches the image id glob. -/
def delete (env : Ec2Env) (body : WebhookBody) : List Ec2Call × Response :=
  match body.eventPayload with
  | none => ([], mkResp (.error (.keyError "eventPayload")))
  | some p =>
    match p.builds with
    | none => ([], mkResp (.error (.keyError "builds")))
    | some builds =>
      let amis := return_image_id builds "aws"
      if amis.length = 0 then ([], ⟨.int 200, .text "No AMIs found in iteration."⟩)
      else
        ((deleteGo env amis).1, mkResp (deleteGo env amis).2)

/-! ## Dispatch and the Lambda entry point -/

/-- The `match body["eventAction"]` dispatch of `lambda_handler`.  A
missing key raises an uncaught `KeyError`; an unknown action returns the
400 response of the wildcard arm. -/
def dispatch (env : Ec2Env) (nowSec : Nat) (body : WebhookBody) :
    Except PyErr (List Ec2Call × Response) :=
  match body.eventAction with
  | none => .error (.keyError "eventAction")
  | some a =>
    if a = "test" then .ok ([], verify)
    else if a = "complete" then .ok (complete env body)
    else if a = "revoke" then .ok (revoke env nowSec body)
    else if a = "restore" then .ok (restore env body)
    else if a = "delete" then .ok (delete env body)
    else .ok ([], ⟨.int 400,
      .text ("Action " ++ a ++ " found in request is not supported.")⟩)

/-- An inbound Lambda event: the headers mapping, the raw body bytes, and
the outcome of `json.loads(event["body"])`. -/
structure Event where
  headers : List (String × String)
  rawBody : List Byte
  parsedBody : Except PyErr WebhookBody

/-- `lambda_handler(event, context)`: require the signature header (403 if
absent), verify the HMAC (403 on mismatch), then parse the body and
dispatch.  A `json.loads` failure or a missing `eventAction` key is an
uncaught exception. -/
def lambda_handler (env : Ec2Env) (signingKey : List Byte) (nowSec : Nat)
    (event : Event) : Except PyErr (List Ec2Call × Response) :=
  match event.headers.lookup "X-Hcp-Webhook-Signature" with
  | none => .ok ([], ⟨.int 403, .text "HMAC signature not provided."⟩)
  | some signature =>
    if verify_hmac signingKey event.rawBody signature then
      match event.parsedBody with
      | .error e => .error e
      | .ok body => dispatch env nowSec body
    else .ok ([], ⟨.int 403, .text "Unauthorized: HMAC signature mismatch."⟩)

/-! ## Spec-side definitions

Used to compare the source functions against the wording of the spec, and
to model the externally defined snapshot description filter semantics.
-/

/-- The Artifact Extractor as the spec words it (section 4.3): filter the
builds to the requested provider, then flatten every image of each
matching build into one Extracted Image carrying the id of that build.
Stated independently of `return_image_id` so the two can be compared. -/
def extractSpec (builds : List Build) (provider : String) : List ExtractedImage :=
  (builds.filter (fun b => decide (b.cloud_provider = provider))).flatMap
    (fun b => b.images.map (fun i =>
      { id := i.image_id, region := i.region, build_id := b.id }))

/-- Modelled from the spec: the cloud compute API lists storage snapshots
by description filter (spec section 6), and the glob value `*X*` the
source passes means "description contains `X` as a substring" (spec
section 4.4 delete).  The EC2 implementation of the filter is external to
this repository, so it is modelled here: from a snapshot store, the filter
returns exactly the snapshots whose description contains the image id. -/
def snapshotFilter (store : List Snapshot) (amiId : String) : List Snapshot :=
  store.filter (fun s => strContains s.description amiId)

/-- The per-image loop shape shared by `complete`, `revoke` and `restore`:
run the try-block `step`, record `Success` with the handler message or
`Skipped` with the error code of an `InvalidAMIID`-class client error, and
re-raise anything else.  Each of the three loop functions is proved equal
to an instance of this one. -/
def stepGo (step : ExtractedImage → List Ec2Call × Except PyErr Unit)
    (succMsg : ExtractedImage → String) :
    List ExtractedImage → List Ec2Call × Except PyErr (List ActionResult)
  | [] => ([], .ok [])
  | ami :: rest =>
    match (step ami).2 with
    | .ok _ =>
      ((step ami).1 ++ (stepGo step succMsg rest).1,
       (stepGo step succMsg rest).2.map (fun acts =>
         ⟨.ami ami.id, ami.region, "Success", succMsg ami⟩ :: acts))
    | .error (.clientError code t) =>
      if pyStartsWith code "InvalidAMIID" then
        ((step ami).1 ++ (stepGo step succMsg rest).1,
         (stepGo step succMsg rest).2.map (fun acts =>
           ⟨.ami ami.id, ami.region, "Skipped", code⟩ :: acts))
      else ((step ami).1, .error (.clientError code t))
    | .error e => ((step ami).1, .error e)

/-- The snapshot row recorded for one deleted snapshot. -/
def snapRow (region amiId : String) (s : Snapshot) : ActionResult :=
  ⟨.snapshot s.snapshotId, region, "Success", "Snapshot for AMI " ++ amiId ++ " deleted"⟩

/-- The per-image row recorded by a successful deregistration. -/
def derOkRow (ami : ExtractedImage) : ActionResult :=
  ⟨.ami ami.id, ami.region, "Success", "AMI deregistered"⟩

/-- The per-image row recorded by a skipped deregistration. -/
def derSkipRow (ami : ExtractedImage) (code : String) : ActionResult :=
  ⟨.ami ami.id, ami.region, "Skipped", code⟩

/-! ## Concrete sample values used by witnesses and counterexamples -/

/-- An environment where every cloud call succeeds and returns nothing. -/
def envOk : Ec2Env where
  createTags := fun _ _ _ => .ok ()
  enableImageDeprecation := fun _ _ _ => .ok ()
  disableImageDeprecation := fun _ _ => .ok ()
  deleteTags := fun _ _ _ => .ok ()
  deregisterImage := fun _ _ => .ok ()
  describeSnapshots := fun _ _ => .ok []
  deleteSnapshot := fun _ _ => .ok ()
  getBuilds := .ok [{ id := "b1", cloud_provider := "aws",
                      images := [{ image_id := "ami-1", region := "us-east-1" }] }]

/-- A build with one AWS image. -/
def buildAws : Build :=
  { id := "b1", cloud_provider := "aws",
    images := [{ image_id := "ami-1", region := "us-east-1" }] }

/-- A build for a different cloud provider. -/
def buildAzure : Build :=
  { id := "b2", cloud_provider := "azure",
    images := [{ image_id := "vm-1", region := "eastus" }] }

/-- A sample iteration object. -/
def sampleIteration : Iteration :=
  { fingerprint := "fp", version := "v1", id := "it1",
    revocation_author := "alice", revocation_message := "cve fixed" }

/-- A sample payload carrying one AWS build. -/
def samplePayload : Payload :=
  { organization_id := "org", project_id := "proj", bucket := { slug := "bkt" },
    iteration := sampleIteration, builds := some [buildAws] }

/-- A request body carrying one AWS build. -/
def bodyW : WebhookBody :=
  { eventAction := some "complete", eventPayload := some samplePayload }

/-- A payload whose builds are all for another provider. -/
def azurePayload : Payload :=
  { samplePayload with builds := some [buildAzure] }

/-- A request body whose builds are all for another provider. -/
def bodyAzure : WebhookBody :=
  { eventAction := some "complete", eventPayload := some azurePayload }

/-- A build holding two AWS images. -/
def buildTwo : Build :=
  { id := "b1", cloud_provider := "aws",
    images := [{ image_id := "ami-1", region := "us-east-1" },
               { image_id := "ami-2", region := "us-east-1" }] }

/-- A payload with one build holding two AWS images. -/
def payloadTwo : Payload :=
  { samplePayload with builds := some [buildTwo] }

/-- A body with one build holding two AWS images. -/
def bodyTwo : WebhookBody :=
  { eventAction := some "complete", eventPayload := some payloadTwo }

/-- The extracted image of `buildAws`. -/
def amiW : ExtractedImage := { id := "ami-1", region := "us-east-1", build_id := "b1" }

/-- An environment whose tagging call fails with an unclassified client
error on the second image only. -/
def envC4 : Ec2Env :=
  { envOk with createTags := fun _ ami _ =>
      (if ami = "ami-2" then .error (.clientError "UnauthorizedOperation" "boom")
       else .ok ()) }

/-- An environment where `describe_snapshots` itself raises a client error
of the invalid-image-identifier class. -/
def envInvalidDescribe : Ec2Env :=
  { envOk with describeSnapshots :=
      fun _ _ => .error (.clientError "InvalidAMIID.NotFound" "oops") }

/-- An environment where `describe_snapshots` raises a generic error. -/
def envDescribeBoom : Ec2Env :=
  { envOk with describeSnapshots := fun _ _ => .error (.exn "neterr") }

/-- A two-snapshot store: only the first description mentions `ami-1`. -/
def storeW : List Snapshot :=
  [{ snapshotId := "snap-1", description := "Created by CreateImage for ami-1" },
   { snapshotId := "snap-2", description := "Created by CreateImage for ami-9" }]

/-- An environment whose snapshot listing implements the modelled
description filter over `storeW`. -/
def envC7 : Ec2Env :=
  { envOk with describeSnapshots := fun _ _ => .ok (snapshotFilter storeW "ami-1") }

/-- An environment whose tag creation fails with an invalid-identifier
class client error. -/
def envSkipTags : Ec2Env :=
  { envOk with createTags :=
      fun _ _ _ => .error (.clientError "InvalidAMIID.NotFound" "nope") }

/-- A concrete inbound event carrying a wrong signature header. -/
def evC3 : Event :=
  { headers := [("X-Hcp-Webhook-Signature", "bad")], rawBody := [],
    parsedBody := .ok { eventAction := some "test", eventPayload := none } }

/-! ## Helper lemmas -/

/-- The extractor of the source equals the spec-side extractor. -/
theorem return_image_id_eq (builds : List Build) (provider : String) :
    return_image_id builds provider = extractSpec builds provider := by
  induction builds with
  | nil => rfl
  | cons b rest ih =>
    simp only [return_image_id, extractSpec, List.filter_cons] at ih ⊢
    by_cases h : b.cloud_provider = provider
    · simp [h, ih]
    · simp [h, ih]

/-- No matching build means no extracted image. -/
theorem return_image_id_nil (builds : List Build) (provider : String)
    (h : ∀ b ∈ builds, ¬ b.cloud_provider = provider) :
    return_image_id builds provider = [] := by
  induction builds with
  | nil => rfl
  | cons b rest ih =>
    simp only [return_image_id]
    rw [if_neg (h b (List.mem_cons_self b rest)), ih fun x hx => h x (List.mem_cons_of_mem b hx)]
    rfl

/-! ## Claims -/

/-- Claim C5: `return_image_id` returns exactly the images of builds whose
cloud-provider field equals the provider, in build order then artifact
order, carrying build id, image id and region, with no de-duplication
(this is the equality with the order-preserving filter-and-flatten
`extractSpec`); it never fails and returns the empty list when no build
matches. -/
theorem claimC5 (builds : List Build) (provider : String) :
    return_image_id builds provider = extractSpec builds provider ∧
    ((∀ b ∈ builds, ¬ b.cloud_provider = provider) →
      return_image_id builds provider = []) :=
  ⟨return_image_id_eq builds provider, fun h => return_image_id_nil builds provider h⟩

/-- Witness for C5 at a concrete non-matching build list. -/
theorem claimC5_witness :
    (∀ b ∈ [buildAzure], ¬ b.cloud_provider = "aws") ∧
    return_image_id [buildAzure] "aws" = [] :=
  ⟨by decide, (claimC5 [buildAzure] "aws").2 (by decide)⟩

/-- Claim C2, counterexample: a body without the `eventAction` key does
not produce a 400 response; `body["eventAction"]` raises an uncaught
`KeyError`, so the invocation crashes. -/
theorem claimC2_counterexample :
    dispatch envOk 0 { eventAction := none, eventPayload := none } =
      .error (.keyError "eventAction") := rfl

/-- Claim C2, amended: for every body holding an unrecognized
`eventAction` value, dispatch returns status 400 echoing the value; a
missing `eventAction` key instead raises an uncaught `KeyError`. -/
theorem claimC2 (env : Ec2Env) (nowSec : Nat) (body : WebhookBody) (a : String)
    (ha : body.eventAction = some a) (h1 : ¬ a = "test") (h2 : ¬ a = "complete")
    (h3 : ¬ a = "revoke") (h4 : ¬ a = "restore") (h5 : ¬ a = "delete") :
    dispatch env nowSec body =
      .ok ([], ⟨.int 400,
        .text ("Action " ++ a ++ " found in request is not supported.")⟩) := by
  unfold dispatch
  rw [ha]
  simp [h1, h2, h3, h4, h5]

/-- Witness for C2 at the action `frobnicate`. -/
theorem claimC2_witness :
    dispatch envOk 0 { eventAction := some "frobnicate", eventPayload := none } =
      .ok ([], ⟨.int 400,
        .text ("Action " ++ "frobnicate" ++ " found in request is not supported.")⟩) :=
  claimC2 envOk 0 _ "frobnicate" rfl (by decide) (by decide) (by decide) (by decide)
    (by decide)

/-- Claim C9: dispatch on the action `test` always yields the `verify`
response regardless of the payload, without touching it; however, the
status code the source returns is the string `"200"`, not the integer
`200` (the code bug this claim uncovers). -/
theorem claimC9 (env : Ec2Env) (nowSec : Nat) (payload : Option Payload) :
    dispatch env nowSec { eventAction := some "test", eventPayload := payload } =
      .ok ([], verify) ∧
    verify = ⟨.str "200", .text "Verification successful!"⟩ ∧
    verify.statusCode = .str "200" :=
  ⟨rfl, rfl, rfl⟩

/-- Claim C8, counterexample: with no matching build, `complete` answers
200 with the text `No AMIs found in iteration.`, not the claimed `No AMIs
found in artifact version.`. -/
theorem claimC8_counterexample :
    complete envOk bodyAzure = ([], ⟨.int 200, .text "No AMIs found in iteration."⟩) ∧
    (((complete envOk bodyAzure).2 ==
        Response.mk (.int 200) (.text "No AMIs found in artifact version.")) = false) :=
  ⟨by decide, by decide⟩

/-- Claim C8, amended: a `complete` request whose builds contain no AWS
build returns 200 with body `No AMIs found in iteration.` and issues no
cloud API call (the emitted trace is empty). -/
theorem claimC8 (env : Ec2Env) (body : WebhookBody) (p : Payload) (builds : List Build)
    (hp : body.eventPayload = some p) (hb : p.builds = some builds)
    (hmatch : ∀ b ∈ builds, ¬ b.cloud_provider = "aws") :
    complete env body = ([], ⟨.int 200, .text "No AMIs found in iteration."⟩) := by
  have hnil := return_image_id_nil builds "aws" hmatch
  unfold complete
  simp [hp, hb, hnil]

/-- Witness for C8 at a concrete azure-only build list. -/
theorem claimC8_witness :
    complete envOk bodyAzure = ([], ⟨.int 200, .text "No AMIs found in iteration."⟩) :=
  claimC8 envOk bodyAzure azurePayload [buildAzure] rfl rfl (by decide)

/-- A 500 response built by `mkResp` reports no action results. -/
theorem mkResp_500_no_actions (r : Except PyErr (List ActionResult))
    (h : (mkResp r).statusCode = .int 500) :
    RespBody.actionsOf (mkResp r).body = none := by
  cases r with
  | ok acts => simp [mkResp] at h
  | error e => simp [mkResp, RespBody.actionsOf]

/-- Every `complete` response is a loop outcome wrapped by `mkResp` or the
no-images short circuit. -/
theorem complete_shape (env : Ec2Env) (body : WebhookBody) :
    (∃ r, (complete env body).2 = mkResp r) ∨
    (complete env body).2 = ⟨.int 200, .text "No AMIs found in iteration."⟩ := by
  rcases hp : body.eventPayload with _ | p
  · exact Or.inl ⟨.error (.keyError "eventPayload"), by simp [complete, hp]⟩
  · rcases hb : p.builds with _ | builds
    · exact Or.inl ⟨.error (.keyError "builds"), by simp [complete, hp, hb]⟩
    · by_cases hlen : (return_image_id builds "aws").length = 0
      · exact Or.inr (by simp [complete, hp, hb, hlen])
      · exact Or.inl ⟨(completeGo env p (return_image_id builds "aws")).2,
          by simp [complete, hp, hb, hlen]⟩

/-- Every `revoke` response is a loop outcome wrapped by `mkResp` or the
no-images short circuit. -/
theorem revoke_shape (env : Ec2Env) (nowSec : Nat) (body : WebhookBody) :
    (∃ r, (revoke env nowSec body).2 = mkResp r) ∨
    (revoke env nowSec body).2 = ⟨.int 200, .text "No AMIs found in iteration."⟩ := by
  rcases hg : get_builds env body with e | builds
  · exact Or.inl ⟨.error e, by simp [revoke, hg]⟩
  · rcases hp : body.eventPayload with _ | p
    · exact Or.inl ⟨.error (.keyError "eventPayload"), by simp [revoke, hg, hp]⟩
    · by_cases hlen : (return_image_id builds "aws").length = 0
      · exact Or.inr (by simp [revoke, hg, hp, hlen])
      · exact Or.inl ⟨(revokeGo env p (nowSec + 60) (return_image_id builds "aws")).2,
          by simp [revoke, hg, hp, hlen]⟩

/-- Every `restore` response is a loop outcome wrapped by `mkResp` or the
no-images short circuit. -/
theorem restore_shape (env : Ec2Env) (body : WebhookBody) :
    (∃ r, (restore env body).2 = mkResp r) ∨
    (restore env body).2 = ⟨.int 200, .text "No AMIs found in iteration."⟩ := by
  rcases hg : get_builds env body with e | builds
  · exact Or.inl ⟨.error e, by simp [restore, hg]⟩
  · by_cases hlen : (return_image_id builds "aws").length = 0
    · exact Or.inr (by simp [restore, hg, hlen])
    · exact Or.inl ⟨(restoreGo env (return_image_id builds "aws")).2,
        by simp [restore, hg, hlen]⟩

/-- Every `delete` response is a loop outcome wrapped by `mkResp` or the
no-images short circuit. -/
theorem delete_shape (env : Ec2Env) (body : WebhookBody) :
    (∃ r, (delete env body).2 = mkResp r) ∨
    (delete env body).2 = ⟨.int 200, .text "No AMIs found in iteration."⟩ := by
  rcases hp : body.eventPayload with _ | p
  · exact Or.inl ⟨.error (.keyError "eventPayload"), by simp [delete, hp]⟩
  · rcases hb : p.builds with _ | builds
    · exact Or.inl ⟨.error (.keyError "builds"), by simp [delete, hp, hb]⟩
    · by_cases hlen : (return_image_id builds "aws").length = 0
      · exact Or.inr (by simp [delete, hp, hb, hlen])
      · exact Or.inl ⟨(deleteGo env (return_image_id builds "aws")).2,
          by simp [delete, hp, hb, hlen]⟩

/-- Claim C4, counterexample: with two images where the first tag call
succeeds and the second fails with an unclassified client error, the 500
response body is only the error text — the Success already recorded for
the first image is not reported.  The third conjunct shows the first image
alone would have produced a Success row. -/
theorem claimC4_counterexample :
    complete envC4 bodyTwo =
      ([Ec2Call.createTags "us-east-1" "ami-1"
          [("HCPPackerBucket", "bkt"), ("HCPPackerIterationFingerprint", "fp"),
           ("HCPPackerIterationVersion", "v1"), ("HCPPackerBuildID", "b1")],
        Ec2Call.createTags "us-east-1" "ami-2"
          [("HCPPackerBucket", "bkt"), ("HCPPackerIterationFingerprint", "fp"),
           ("HCPPackerIterationVersion", "v1"), ("HCPPackerBuildID", "b1")]],
       ⟨.int 500, .text "Error: boom"⟩) ∧
    RespBody.actionsOf (complete envC4 bodyTwo).2.body = none ∧
    completeGo envC4 payloadTwo [{ id := "ami-1", region := "us-east-1", build_id := "b1" }] =
      ([Ec2Call.createTags "us-east-1" "ami-1"
          [("HCPPackerBucket", "bkt"), ("HCPPackerIterationFingerprint", "fp"),
           ("HCPPackerIterationVersion", "v1"), ("HCPPackerBuildID", "b1")]],
       .ok [⟨.ami "ami-1", "us-east-1", "Success", "AMI tags added"⟩]) :=
  ⟨by decide, by decide, by decide⟩

/-- Claim C4, amended: an unclassified cloud-API error aborts the
invocation with a 500 response that carries only the error text; the
already-recorded per-image results are discarded, and no 500 response of
any of the four mutating handlers reports action results. -/
theorem claimC4 (env : Ec2Env) (nowSec : Nat) (body : WebhookBody) :
    ((complete env body).2.statusCode = .int 500 →
      RespBody.actionsOf (complete env body).2.body = none) ∧
    ((revoke env nowSec body).2.statusCode = .int 500 →
      RespBody.actionsOf (revoke env nowSec body).2.body = none) ∧
    ((restore env body).2.statusCode = .int 500 →
      RespBody.actionsOf (restore env body).2.body = none) ∧
    ((delete env body).2.statusCode = .int 500 →
      RespBody.actionsOf (delete env body).2.body = none) := by
  have key : ∀ resp : Response,
      ((∃ r, resp = mkResp r) ∨
        resp = ⟨.int 200, .text "No AMIs found in iteration."⟩) →
      resp.statusCode = .int 500 → RespBody.actionsOf resp.body = none := by
    rintro resp (⟨r, rfl⟩ | rfl) h
    · exact mkResp_500_no_actions r h
    · simp [RespBody.actionsOf]
  exact ⟨key _ (complete_shape env body), key _ (revoke_shape env nowSec body),
    key _ (restore_shape env body), key _ (delete_shape env body)⟩

/-- Witness for C4 at the concrete two-image run. -/
theorem claimC4_witness :
    RespBody.actionsOf (complete envC4 bodyTwo).2.body = none :=
  (claimC4 envC4 0 bodyTwo).1 (by decide)

/-- Claim C3: with the signature header present, HMAC verification
succeeds exactly when the header value equals the lowercase-hex
HMAC-SHA512 digest of the raw body under the key, and on a mismatch the
handler rejects the request with the 403 mismatch response. -/
theorem claimC3 (env : Ec2Env) (signingKey : List Byte) (nowSec : Nat)
    (event : Event) (sig : String)
    (hsig : event.headers.lookup "X-Hcp-Webhook-Signature" = some sig) :
    (verify_hmac signingKey event.rawBody sig = true ↔
      sig = hmacSha512Hex signingKey event.rawBody) ∧
    (¬ sig = hmacSha512Hex signingKey event.rawBody →
      lambda_handler env signingKey nowSec event =
        .ok ([], ⟨.int 403, .text "Unauthorized: HMAC signature mismatch."⟩)) := by
  constructor
  · unfold verify_hmac
    constructor
    · intro h
      exact (beq_iff_eq.mp h).symm
    · intro h
      rw [h]
      exact beq_self_eq_true _
  · intro hne
    have hv : verify_hmac signingKey event.rawBody sig = false := by
      unfold verify_hmac
      rw [beq_eq_false_iff_ne]
      exact fun h => hne h.symm
    unfold lambda_handler
    rw [hsig]
    simp [hv]

/-- Witness for C3 at a concrete event whose header cannot match the
digest. -/
theorem claimC3_witness :
    lambda_handler envOk [] 0 evC3 =
      .ok ([], ⟨.int 403, .text "Unauthorized: HMAC signature mismatch."⟩) :=
  (claimC3 envOk [] 0 evC3 "bad" rfl).2 (by decide)

/-! ## Loop lemmas -/

/-- The `complete` loop is the generic loop at its step and message. -/
theorem completeGo_eq (env : Ec2Env) (p : Payload) (amis : List ExtractedImage) :
    completeGo env p amis = stepGo (completeStep env p) (fun _ => "AMI tags added") amis := by
  induction amis with
  | nil => rfl
  | cons ami rest ih => simp only [completeGo, stepGo, ih]

/-- The `revoke` loop is the generic loop at its step and message. -/
theorem revokeGo_eq (env : Ec2Env) (p : Payload) (dep : Nat) (amis : List ExtractedImage) :
    revokeGo env p dep amis =
      stepGo (revokeStep env p dep)
        (fun _ => "AMI deprecation time set to " ++ toString dep) amis := by
  induction amis with
  | nil => rfl
  | cons ami rest ih => simp only [revokeGo, stepGo, ih]

/-- The `restore` loop is the generic loop at its step and message. -/
theorem restoreGo_eq (env : Ec2Env) (amis : List ExtractedImage) :
    restoreGo env amis =
      stepGo (restoreStep env) (fun _ => "AMI deprecation cleared") amis := by
  induction amis with
  | nil => rfl
  | cons ami rest ih => simp only [restoreGo, stepGo, ih]

/-- A step failing with an `InvalidAMIID`-class client error records a
`Skipped` row and the loop continues with the remaining images. -/
theorem stepGo_skip (step : ExtractedImage → List Ec2Call × Except PyErr Unit)
    (succMsg : ExtractedImage → String) (ami : ExtractedImage)
    (rest : List ExtractedImage) (code t : String)
    (h : (step ami).2 = .error (.clientError code t))
    (hc : pyStartsWith code "InvalidAMIID" = true) :
    stepGo step succMsg (ami :: rest) =
      ((step ami).1 ++ (stepGo step succMsg rest).1,
       (stepGo step succMsg rest).2.map (fun acts =>
         ⟨.ami ami.id, ami.region, "Skipped", code⟩ :: acts)) := by
  simp only [stepGo]
  rw [h]
  simp [hc]

/-- A step failing with anything other than an `InvalidAMIID`-class client
error aborts the loop, re-raising the error; the remaining images are not
processed. -/
theorem stepGo_abort (step : ExtractedImage → List Ec2Call × Except PyErr Unit)
    (succMsg : ExtractedImage → String) (ami : ExtractedImage)
    (rest : List ExtractedImage) (e : PyErr)
    (h : (step ami).2 = .error e)
    (hns : ∀ code t, e = .clientError code t → pyStartsWith code "InvalidAMIID" = false) :
    stepGo step succMsg (ami :: rest) = ((step ami).1, .error e) := by
  simp only [stepGo]
  rw [h]
  cases e with
  | clientError code t => simp [hns code t rfl]
  | keyError k => rfl
  | exn t => rfl

/-- A successful step prepends a `Success` row and continues. -/
theorem stepGo_ok (step : ExtractedImage → List Ec2Call × Except PyErr Unit)
    (succMsg : ExtractedImage → String) (ami : ExtractedImage)
    (rest : List ExtractedImage)
    (h : (step ami).2 = .ok ()) :
    stepGo step succMsg (ami :: rest) =
      ((step ami).1 ++ (stepGo step succMsg rest).1,
       (stepGo step succMsg rest).2.map (fun acts =>
         ⟨.ami ami.id, ami.region, "Success", succMsg ami⟩ :: acts)) := by
  simp only [stepGo]
  rw [h]

/-- In any successful loop outcome, a row is `Skipped` only with an
`InvalidAMIID`-class code as message, and every status is `Success` or
`Skipped`. -/
theorem stepGo_skipped_inv (step : ExtractedImage → List Ec2Call × Except PyErr Unit)
    (succMsg : ExtractedImage → String) :
    ∀ (amis : List ExtractedImage) (acts : List ActionResult),
      (stepGo step succMsg amis).2 = .ok acts →
      ∀ a ∈ acts,
        (a.status = "Skipped" → pyStartsWith a.message "InvalidAMIID" = true) ∧
        (a.status = "Success" ∨ a.status = "Skipped") := by
  intro amis
  induction amis with
  | nil =>
    intro acts h a ha
    simp only [stepGo] at h
    cases h
    simp at ha
  | cons ami rest ih =>
    intro acts h a ha
    rcases hstep : (step ami).2 with e | u
    · cases e with
      | clientError code t =>
        by_cases hc : pyStartsWith code "InvalidAMIID" = true
        · rw [stepGo_skip step succMsg ami rest code t hstep hc] at h
          rcases hrec : (stepGo step succMsg rest).2 with e2 | acts2 <;>
            rw [show (stepGo step succMsg rest).2 = _ from hrec] at h
          · simp [Except.map] at h
          · simp only [Except.map, Except.ok.injEq] at h
            cases h
            rcases List.mem_cons.mp ha with rfl | hmem
            · exact ⟨fun _ => hc, Or.inr rfl⟩
            · exact ih acts2 hrec a hmem
        · have hc2 : pyStartsWith code "InvalidAMIID" = false := by
            revert hc
            cases pyStartsWith code "InvalidAMIID" <;> simp
          rw [stepGo_abort step succMsg ami rest _ hstep
            (fun c2 t2 he => by cases he; exact hc2)] at h
          simp at h
      | keyError k =>
        rw [stepGo_abort step succMsg ami rest _ hstep (fun c2 t2 he => by cases he)] at h
        simp at h
      | exn t =>
        rw [stepGo_abort step succMsg ami rest _ hstep (fun c2 t2 he => by cases he)] at h
        simp at h
    · cases u
      rw [stepGo_ok step succMsg ami rest hstep] at h
      rcases hrec : (stepGo step succMsg rest).2 with e2 | acts2 <;>
        rw [show (stepGo step succMsg rest).2 = _ from hrec] at h
      · simp [Except.map] at h
      · simp only [Except.map, Except.ok.injEq] at h
        cases h
        rcases List.mem_cons.mp ha with rfl | hmem
        · refine ⟨fun hs => ?_, Or.inl rfl⟩
          simp at hs
        · exact ih acts2 hrec a hmem

/-- Every call emitted by the generic loop comes from a step on one of the
listed images. -/
theorem stepGo_calls (step : ExtractedImage → List Ec2Call × Except PyErr Unit)
    (succMsg : ExtractedImage → String) :
    ∀ (amis : List ExtractedImage) (c : Ec2Call),
      c ∈ (stepGo step succMsg amis).1 → ∃ ami ∈ amis, c ∈ (step ami).1 := by
  intro amis
  induction amis with
  | nil =>
    intro c hc
    simp [stepGo] at hc
  | cons ami rest ih =>
    intro c hc
    rcases hstep : (step ami).2 with e | u
    · cases e with
      | clientError code t =>
        by_cases hb : pyStartsWith code "InvalidAMIID" = true
        · rw [stepGo_skip step succMsg ami rest code t hstep hb] at hc
          simp only [List.mem_append] at hc
          rcases hc with hc | hc
          · exact ⟨ami, List.mem_cons_self ami rest, hc⟩
          · obtain ⟨x, hx, hcx⟩ := ih c hc
            exact ⟨x, List.mem_cons_of_mem ami hx, hcx⟩
        · have hb2 : pyStartsWith code "InvalidAMIID" = false := by
            revert hb
            cases pyStartsWith code "InvalidAMIID" <;> simp
          rw [stepGo_abort step succMsg ami rest _ hstep
            (fun c2 t2 he => by cases he; exact hb2)] at hc
          exact ⟨ami, List.mem_cons_self ami rest, hc⟩
      | keyError k =>
        rw [stepGo_abort step succMsg ami rest _ hstep (fun c2 t2 he => by cases he)] at hc
        exact ⟨ami, List.mem_cons_self ami rest, hc⟩
      | exn t =>
        rw [stepGo_abort step succMsg ami rest _ hstep (fun c2 t2 he => by cases he)] at hc
        exact ⟨ami, List.mem_cons_self ami rest, hc⟩
    · cases u
      rw [stepGo_ok step succMsg ami rest hstep] at hc
      simp only [List.mem_append] at hc
      rcases hc with hc | hc
      · exact ⟨ami, List.mem_cons_self ami rest, hc⟩
      · obtain ⟨x, hx, hcx⟩ := ih c hc
        exact ⟨x, List.mem_cons_of_mem ami hx, hcx⟩

/-! ## Handler run characterizations -/

/-- Every `complete` run is the wrapped loop on the extracted images, the
no-images short circuit, or a wrapped `KeyError`. -/
theorem complete_run_cases (env : Ec2Env) (body : WebhookBody) :
    (∃ p builds, body.eventPayload = some p ∧ p.builds = some builds ∧
      ¬ (return_image_id builds "aws").length = 0 ∧
      complete env body =
        ((completeGo env p (return_image_id builds "aws")).1,
         mkResp (completeGo env p (return_image_id builds "aws")).2)) ∨
    complete env body = ([], ⟨.int 200, .text "No AMIs found in iteration."⟩) ∨
    (∃ e, complete env body = ([], mkResp (.error e))) := by
  rcases hp : body.eventPayload with _ | p
  · exact Or.inr (Or.inr ⟨.keyError "eventPayload", by simp [complete, hp]⟩)
  · rcases hb : p.builds with _ | builds
    · exact Or.inr (Or.inr ⟨.keyError "builds", by simp [complete, hp, hb]⟩)
    · by_cases hlen : (return_image_id builds "aws").length = 0
      · exact Or.inr (Or.inl (by simp [complete, hp, hb, hlen]))
      · exact Or.inl ⟨p, builds, rfl, hb, hlen, by simp [complete, hp, hb, hlen]⟩

/-- Every `revoke` run is the wrapped loop at deprecation time
`nowSec + 60`, the no-images short circuit, or a wrapped error. -/
theorem revoke_run_cases (env : Ec2Env) (nowSec : Nat) (body : WebhookBody) :
    (∃ p builds, get_builds env body = .ok builds ∧ body.eventPayload = some p ∧
      ¬ (return_image_id builds "aws").length = 0 ∧
      revoke env nowSec body =
        ((revokeGo env p (nowSec + 60) (return_image_id builds "aws")).1,
         mkResp (revokeGo env p (nowSec + 60) (return_image_id builds "aws")).2)) ∨
    revoke env nowSec body = ([], ⟨.int 200, .text "No AMIs found in iteration."⟩) ∨
    (∃ e, revoke env nowSec body = ([], mkResp (.error e))) := by
  rcases hg : get_builds env body with e | builds
  · exact Or.inr (Or.inr ⟨e, by simp [revoke, hg]⟩)
  · rcases hp : body.eventPayload with _ | p
    · exact Or.inr (Or.inr ⟨.keyError "eventPayload", by simp [revoke, hg, hp]⟩)
    · by_cases hlen : (return_image_id builds "aws").length = 0
      · exact Or.inr (Or.inl (by simp [revoke, hg, hp, hlen]))
      · exact Or.inl ⟨p, builds, rfl, rfl, hlen, by simp [revoke, hg, hp, hlen]⟩

/-- Every `restore` run is the wrapped loop, the no-images short circuit,
or a wrapped error. -/
theorem restore_run_cases (env : Ec2Env) (body : WebhookBody) :
    (∃ builds, get_builds env body = .ok builds ∧
      ¬ (return_image_id builds "aws").length = 0 ∧
      restore env body =
        ((restoreGo env (return_image_id builds "aws")).1,
         mkResp (restoreGo env (return_image_id builds "aws")).2)) ∨
    restore env body = ([], ⟨.int 200, .text "No AMIs found in iteration."⟩) ∨
    (∃ e, restore env body = ([], mkResp (.error e))) := by
  rcases hg : get_builds env body with e | builds
  · exact Or.inr (Or.inr ⟨e, by simp [restore, hg]⟩)
  · by_cases hlen : (return_image_id builds "aws").length = 0
    · exact Or.inr (Or.inl (by simp [restore, hg, hlen]))
    · exact Or.inl ⟨builds, rfl, hlen, by simp [restore, hg, hlen]⟩

/-- Every `delete` run is the wrapped loop on the extracted images, the
no-images short circuit, or a wrapped `KeyError`. -/
theorem delete_run_cases (env : Ec2Env) (body : WebhookBody) :
    (∃ p builds, body.eventPayload = some p ∧ p.builds = some builds ∧
      ¬ (return_image_id builds "aws").length = 0 ∧
      delete env body =
        ((deleteGo env (return_image_id builds "aws")).1,
         mkResp (deleteGo env (return_image_id builds "aws")).2)) ∨
    delete env body = ([], ⟨.int 200, .text "No AMIs found in iteration."⟩) ∨
    (∃ e, delete env body = ([], mkResp (.error e))) := by
  rcases hp : body.eventPayload with _ | p
  · exact Or.inr (Or.inr ⟨.keyError "eventPayload", by simp [delete, hp]⟩)
  · rcases hb : p.builds with _ | builds
    · exact Or.inr (Or.inr ⟨.keyError "builds", by simp [delete, hp, hb]⟩)
    · by_cases hlen : (return_image_id builds "aws").length = 0
      · exact Or.inr (Or.inl (by simp [delete, hp, hb, hlen]))
      · exact Or.inl ⟨p, builds, rfl, hb, hlen, by simp [delete, hp, hb, hlen]⟩

/-! ## Delete loop lemmas -/

/-- With every snapshot deletion succeeding, the snapshot loop deletes
each listed snapshot in order and records one row per deletion. -/
theorem deleteSnapsGo_ok (env : Ec2Env) (region amiId : String) :
    ∀ snaps : List Snapshot,
      (∀ s ∈ snaps, env.deleteSnapshot region s.snapshotId = .ok ()) →
      deleteSnapsGo env region amiId snaps =
        (snaps.map (fun s => Ec2Call.deleteSnapshot region s.snapshotId),
         .ok (snaps.map (snapRow region amiId))) := by
  intro snaps
  induction snaps with
  | nil => intro _; rfl
  | cons sn rest ih =>
    intro h
    have h1 := h sn (List.mem_cons_self sn rest)
    have h2 := ih fun x hx => h x (List.mem_cons_of_mem sn hx)
    simp only [deleteSnapsGo]
    rw [h1]
    simp [h2, Except.map, snapRow]

/-- A failing snapshot deletion aborts the snapshot loop at once. -/
theorem deleteSnapsGo_abort (env : Ec2Env) (region amiId : String)
    (sn : Snapshot) (rest : List Snapshot) (e : PyErr)
    (h : env.deleteSnapshot region sn.snapshotId = .error e) :
    deleteSnapsGo env region amiId (sn :: rest) =
      ([Ec2Call.deleteSnapshot region sn.snapshotId], .error e) := by
  simp only [deleteSnapsGo]
  rw [h]

/-- A successful head deletion records its row and continues. -/
theorem deleteSnapsGo_cons_ok (env : Ec2Env) (region amiId : String)
    (sn : Snapshot) (rest : List Snapshot)
    (h : env.deleteSnapshot region sn.snapshotId = .ok ()) :
    deleteSnapsGo env region amiId (sn :: rest) =
      (Ec2Call.deleteSnapshot region sn.snapshotId ::
        (deleteSnapsGo env region amiId rest).1,
       (deleteSnapsGo env region amiId rest).2.map (fun acts =>
         snapRow region amiId sn :: acts)) := by
  simp only [deleteSnapsGo]
  rw [h]
  simp [snapRow]

/-- Every row of a successful snapshot loop is a `Success` on a snapshot
target. -/
theorem deleteSnapsGo_inv (env : Ec2Env) (region amiId : String) :
    ∀ (snaps : List Snapshot) (acts : List ActionResult),
      (deleteSnapsGo env region amiId snaps).2 = .ok acts →
      ∀ a ∈ acts, a.status = "Success" ∧ ∃ sid, a.target = .snapshot sid := by
  intro snaps
  induction snaps with
  | nil =>
    intro acts h a ha
    simp only [deleteSnapsGo] at h
    cases h
    simp at ha
  | cons sn rest ih =>
    intro acts h a ha
    rcases hdel : env.deleteSnapshot region sn.snapshotId with e | u
    · rw [deleteSnapsGo_abort env region amiId sn rest e hdel] at h
      simp at h
    · cases u
      rw [deleteSnapsGo_cons_ok env region amiId sn rest hdel] at h
      rcases hrec : (deleteSnapsGo env region amiId rest).2 with e2 | acts2 <;>
        rw [show (deleteSnapsGo env region amiId rest).2 = _ from hrec] at h
      · simp [Except.map] at h
      · simp only [Except.map, Except.ok.injEq] at h
        cases h
        rcases List.mem_cons.mp ha with rfl | hmem
        · exact ⟨rfl, sn.snapshotId, rfl⟩
        · exact ih acts2 hrec a hmem

/-- An unclassified deregistration failure aborts the image processing:
no result row, no snapshot call. -/
theorem deleteImage_der_abort (env : Ec2Env) (ami : ExtractedImage) (e : PyErr)
    (h : env.deregisterImage ami.region ami.id = .error e)
    (hns : ∀ code t, e = .clientError code t → pyStartsWith code "InvalidAMIID" = false) :
    deleteImage env ami = ([Ec2Call.deregisterImage ami.region ami.id], .error e) := by
  simp only [deleteImage]
  rw [h]
  cases e with
  | clientError code t => simp [hns code t rfl]
  | keyError k => rfl
  | exn t => rfl

/-- After a successful or skipped deregistration, a failing snapshot
listing aborts the image processing with that error. -/
theorem deleteImage_desc_abort (env : Ec2Env) (ami : ExtractedImage) (e : PyErr)
    (hder : env.deregisterImage ami.region ami.id = .ok () ∨
      (∃ code t, env.deregisterImage ami.region ami.id = .error (.clientError code t) ∧
        pyStartsWith code "InvalidAMIID" = true))
    (hdesc : env.describeSnapshots ami.region (snapshotGlob ami.id) = .error e) :
    deleteImage env ami =
      ([Ec2Call.deregisterImage ami.region ami.id,
        Ec2Call.describeSnapshots ami.region (snapshotGlob ami.id)], .error e) := by
  rcases hder with hok | ⟨code, t, herr, hc⟩
  · simp only [deleteImage]
    rw [hok, hdesc]
  · simp only [deleteImage]
    rw [herr, hdesc]
    simp [hc]

/-- After a successful or skipped deregistration, a failing snapshot
deletion aborts the image processing with that error. -/
theorem deleteImage_snap_abort (env : Ec2Env) (ami : ExtractedImage)
    (sn : Snapshot) (rest : List Snapshot) (e : PyErr)
    (hder : env.deregisterImage ami.region ami.id = .ok () ∨
      (∃ code t, env.deregisterImage ami.region ami.id = .error (.clientError code t) ∧
        pyStartsWith code "InvalidAMIID" = true))
    (hdesc : env.describeSnapshots ami.region (snapshotGlob ami.id) = .ok (sn :: rest))
    (hdel : env.deleteSnapshot ami.region sn.snapshotId = .error e) :
    deleteImage env ami =
      ([Ec2Call.deregisterImage ami.region ami.id,
        Ec2Call.describeSnapshots ami.region (snapshotGlob ami.id),
        Ec2Call.deleteSnapshot ami.region sn.snapshotId], .error e) := by
  have habort := deleteSnapsGo_abort env ami.region ami.id sn rest e hdel
  rcases hder with hok | ⟨code, t, herr, hc⟩
  · simp only [deleteImage]
    rw [hok, hdesc]
    simp [habort, Except.map]
  · simp only [deleteImage]
    rw [herr, hdesc]
    simp [hc, habort, Except.map]

/-- With a successful deregistration and all snapshot deletions
succeeding, the image processing deregisters first, then lists and deletes
exactly the returned snapshots, recording one row per deletion. -/
theorem deleteImage_ok_run (env : Ec2Env) (ami : ExtractedImage) (snaps : List Snapshot)
    (hder : env.deregisterImage ami.region ami.id = .ok ())
    (hdesc : env.describeSnapshots ami.region (snapshotGlob ami.id) = .ok snaps)
    (hdel : ∀ s ∈ snaps, env.deleteSnapshot ami.region s.snapshotId = .ok ()) :
    deleteImage env ami =
      (Ec2Call.deregisterImage ami.region ami.id ::
        Ec2Call.describeSnapshots ami.region (snapshotGlob ami.id) ::
        snaps.map (fun s => Ec2Call.deleteSnapshot ami.region s.snapshotId),
       .ok (derOkRow ami :: snaps.map (snapRow ami.region ami.id))) := by
  have hrun := deleteSnapsGo_ok env ami.region ami.id snaps hdel
  simp only [deleteImage]
  rw [hder, hdesc]
  simp [hrun, Except.map, derOkRow]

/-- A skipped deregistration records its `Skipped` row and still proceeds
to list and delete the snapshots. -/
theorem deleteImage_skip_run (env : Ec2Env) (ami : ExtractedImage)
    (code t : String) (snaps : List Snapshot)
    (hder : env.deregisterImage ami.region ami.id = .error (.clientError code t))
    (hc : pyStartsWith code "InvalidAMIID" = true)
    (hdesc : env.describeSnapshots ami.region (snapshotGlob ami.id) = .ok snaps)
    (hdel : ∀ s ∈ snaps, env.deleteSnapshot ami.region s.snapshotId = .ok ()) :
    deleteImage env ami =
      (Ec2Call.deregisterImage ami.region ami.id ::
        Ec2Call.describeSnapshots ami.region (snapshotGlob ami.id) ::
        snaps.map (fun s => Ec2Call.deleteSnapshot ami.region s.snapshotId),
       .ok (derSkipRow ami code :: snaps.map (snapRow ami.region ami.id))) := by
  have hrun := deleteSnapsGo_ok env ami.region ami.id snaps hdel
  simp only [deleteImage]
  rw [hder, hdesc]
  simp [hc, hrun, Except.map, derSkipRow]

/-- With a successful deregistration and a successful snapshot listing,
the image processing is the snapshot loop prefixed by the two calls and
the `Success` row. -/
theorem deleteImage_ok_desc (env : Ec2Env) (ami : ExtractedImage) (snaps : List Snapshot)
    (hder : env.deregisterImage ami.region ami.id = .ok ())
    (hdesc : env.describeSnapshots ami.region (snapshotGlob ami.id) = .ok snaps) :
    deleteImage env ami =
      (Ec2Call.deregisterImage ami.region ami.id ::
        Ec2Call.describeSnapshots ami.region (snapshotGlob ami.id) ::
        (deleteSnapsGo env ami.region ami.id snaps).1,
       (deleteSnapsGo env ami.region ami.id snaps).2.map (fun acts =>
         derOkRow ami :: acts)) := by
  simp only [deleteImage]
  rw [hder, hdesc]
  rfl

/-- With a skipped deregistration and a successful snapshot listing, the
image processing is the snapshot loop prefixed by the two calls and the
`Skipped` row. -/
theorem deleteImage_skip_desc (env : Ec2Env) (ami : ExtractedImage)
    (code t : String) (snaps : List Snapshot)
    (hder : env.deregisterImage ami.region ami.id = .error (.clientError code t))
    (hc : pyStartsWith code "InvalidAMIID" = true)
    (hdesc : env.describeSnapshots ami.region (snapshotGlob ami.id) = .ok snaps) :
    deleteImage env ami =
      (Ec2Call.deregisterImage ami.region ami.id ::
        Ec2Call.describeSnapshots ami.region (snapshotGlob ami.id) ::
        (deleteSnapsGo env ami.region ami.id snaps).1,
       (deleteSnapsGo env ami.region ami.id snaps).2.map (fun acts =>
         derSkipRow ami code :: acts)) := by
  simp only [deleteImage]
  rw [hder, hdesc]
  simp [hc, derSkipRow]

/-- An aborted image processing aborts the whole `delete` loop. -/
theorem deleteGo_abort (env : Ec2Env) (ami : ExtractedImage)
    (rest : List ExtractedImage) (e : PyErr)
    (h : (deleteImage env ami).2 = .error e) :
    deleteGo env (ami :: rest) = ((deleteImage env ami).1, .error e) := by
  simp only [deleteGo]
  rw [h]

/-- A completed image processing contributes its calls and rows and the
loop continues. -/
theorem deleteGo_cont (env : Ec2Env) (ami : ExtractedImage)
    (rest : List ExtractedImage) (acts : List ActionResult)
    (h : (deleteImage env ami).2 = .ok acts) :
    deleteGo env (ami :: rest) =
      ((deleteImage env ami).1 ++ (deleteGo env rest).1,
       (deleteGo env rest).2.map (fun acts2 => acts ++ acts2)) := by
  simp only [deleteGo]
  rw [h]

/-- Every row of a completed image processing: `Skipped` only on the image
target with an `InvalidAMIID`-class code, snapshot rows always `Success`. -/
theorem deleteImage_inv (env : Ec2Env) (ami : ExtractedImage)
    (acts : List ActionResult) (h : (deleteImage env ami).2 = .ok acts) :
    ∀ a ∈ acts,
      (a.status = "Skipped" →
        a.target = .ami ami.id ∧ pyStartsWith a.message "InvalidAMIID" = true) ∧
      (a.status = "Success" ∨ a.status = "Skipped") := by
  intro a ha
  rcases hder : env.deregisterImage ami.region ami.id with e | u
  · rcases e with ⟨code, t⟩ | k | t
    · by_cases hc : pyStartsWith code "InvalidAMIID" = true
      · rcases hdesc : env.describeSnapshots ami.region (snapshotGlob ami.id) with e2 | snaps
        · rw [deleteImage_desc_abort env ami e2 (Or.inr ⟨code, t, hder, hc⟩) hdesc] at h
          simp at h
        · rw [deleteImage_skip_desc env ami code t snaps hder hc hdesc] at h
          rcases hsnaps : (deleteSnapsGo env ami.region ami.id snaps).2 with e3 | acts2 <;>
            rw [show (deleteSnapsGo env ami.region ami.id snaps).2 = _ from hsnaps] at h
          · simp [Except.map] at h
          · simp only [Except.map, Except.ok.injEq] at h
            cases h
            rcases List.mem_cons.mp ha with rfl | hmem
            · exact ⟨fun _ => ⟨rfl, hc⟩, Or.inr rfl⟩
            · obtain ⟨hs, sid, htgt⟩ := deleteSnapsGo_inv env ami.region ami.id snaps acts2 hsnaps a hmem
              refine ⟨fun hsk => ?_, Or.inl hs⟩
              rw [hs] at hsk
              simp at hsk
      · have hc2 : pyStartsWith code "InvalidAMIID" = false := by
          revert hc
          cases pyStartsWith code "InvalidAMIID" <;> simp
        rw [deleteImage_der_abort env ami _ hder
          (fun c2 t2 he => by cases he; exact hc2)] at h
        simp at h
    · rw [deleteImage_der_abort env ami _ hder (fun c2 t2 he => by cases he)] at h
      simp at h
    · rw [deleteImage_der_abort env ami _ hder (fun c2 t2 he => by cases he)] at h
      simp at h
  · cases u
    rcases hdesc : env.describeSnapshots ami.region (snapshotGlob ami.id) with e2 | snaps
    · rw [deleteImage_desc_abort env ami e2 (Or.inl hder) hdesc] at h
      simp at h
    · rw [deleteImage_ok_desc env ami snaps hder hdesc] at h
      rcases hsnaps : (deleteSnapsGo env ami.region ami.id snaps).2 with e3 | acts2 <;>
        rw [show (deleteSnapsGo env ami.region ami.id snaps).2 = _ from hsnaps] at h
      · simp [Except.map] at h
      · simp only [Except.map, Except.ok.injEq] at h
        cases h
        rcases List.mem_cons.mp ha with rfl | hmem
        · refine ⟨fun hsk => ?_, Or.inl rfl⟩
          simp [derOkRow] at hsk
        · obtain ⟨hs, sid, htgt⟩ := deleteSnapsGo_inv env ami.region ami.id snaps acts2 hsnaps a hmem
          refine ⟨fun hsk => ?_, Or.inl hs⟩
          rw [hs] at hsk
          simp at hsk

/-- Every row of a successful `delete` loop: `Skipped` only on an image
target with an `InvalidAMIID`-class code. -/
theorem deleteGo_inv (env : Ec2Env) :
    ∀ (amis : List ExtractedImage) (acts : List ActionResult),
      (deleteGo env amis).2 = .ok acts →
      ∀ a ∈ acts,
        (a.status = "Skipped" →
          (∃ id, a.target = .ami id) ∧ pyStartsWith a.message "InvalidAMIID" = true) ∧
        (a.status = "Success" ∨ a.status = "Skipped") := by
  intro amis
  induction amis with
  | nil =>
    intro acts h a ha
    simp only [deleteGo] at h
    cases h
    simp at ha
  | cons ami rest ih =>
    intro acts h a ha
    rcases him : (deleteImage env ami).2 with e | acts1
    · rw [deleteGo_abort env ami rest e him] at h
      simp at h
    · rw [deleteGo_cont env ami rest acts1 him] at h
      rcases hrec : (deleteGo env rest).2 with e2 | acts2 <;>
        rw [show (deleteGo env rest).2 = _ from hrec] at h
      · simp [Except.map] at h
      · simp only [Except.map, Except.ok.injEq] at h
        cases h
        rcases List.mem_append.mp ha with hmem | hmem
        · obtain ⟨h1, h2⟩ := deleteImage_inv env ami acts1 him a hmem
          exact ⟨fun hsk => ⟨⟨ami.id, (h1 hsk).1⟩, (h1 hsk).2⟩, h2⟩
        · exact ih acts2 hrec a hmem

/-! ## Handler level helpers -/

/-- A response built by `mkResp` reports action rows exactly for a
successful loop outcome. -/
theorem mkResp_actions_inv (r : Except PyErr (List ActionResult))
    (acts : List ActionResult)
    (h : RespBody.actionsOf (mkResp r).body = some acts) : r = .ok acts := by
  cases r with
  | ok a =>
    simp only [mkResp, RespBody.actionsOf, Option.some.injEq] at h
    rw [h]
  | error e => simp [mkResp, RespBody.actionsOf] at h

/-- Skipped rows of a `complete` response carry an `InvalidAMIID`-class
code, and every row is `Success` or `Skipped`. -/
theorem complete_skipped_only (env : Ec2Env) (body : WebhookBody)
    (acts : List ActionResult) (a : ActionResult)
    (h : RespBody.actionsOf (complete env body).2.body = some acts) (ha : a ∈ acts) :
    (a.status = "Skipped" → pyStartsWith a.message "InvalidAMIID" = true) ∧
    (a.status = "Success" ∨ a.status = "Skipped") := by
  rcases complete_run_cases env body with ⟨p, builds, hp, hb, hlen, heq⟩ | heq | ⟨e, heq⟩
  · rw [heq] at h
    have hok : (completeGo env p (return_image_id builds "aws")).2 = .ok acts :=
      mkResp_actions_inv _ acts h
    rw [completeGo_eq] at hok
    exact stepGo_skipped_inv _ _ _ acts hok a ha
  · rw [heq] at h
    simp [RespBody.actionsOf] at h
  · rw [heq] at h
    simp [mkResp, RespBody.actionsOf] at h

/-- Skipped rows of a `revoke` response carry an `InvalidAMIID`-class
code, and every row is `Success` or `Skipped`. -/
theorem revoke_skipped_only (env : Ec2Env) (nowSec : Nat) (body : WebhookBody)
    (acts : List ActionResult) (a : ActionResult)
    (h : RespBody.actionsOf (revoke env nowSec body).2.body = some acts) (ha : a ∈ acts) :
    (a.status = "Skipped" → pyStartsWith a.message "InvalidAMIID" = true) ∧
    (a.status = "Success" ∨ a.status = "Skipped") := by
  rcases revoke_run_cases env nowSec body with ⟨p, builds, hg, hp, hlen, heq⟩ | heq | ⟨e, heq⟩
  · rw [heq] at h
    have hok : (revokeGo env p (nowSec + 60) (return_image_id builds "aws")).2 = .ok acts :=
      mkResp_actions_inv _ acts h
    rw [revokeGo_eq] at hok
    exact stepGo_skipped_inv _ _ _ acts hok a ha
  · rw [heq] at h
    simp [RespBody.actionsOf] at h
  · rw [heq] at h
    simp [mkResp, RespBody.actionsOf] at h

/-- Skipped rows of a `restore` response carry an `InvalidAMIID`-class
code, and every row is `Success` or `Skipped`. -/
theorem restore_skipped_only (env : Ec2Env) (body : WebhookBody)
    (acts : List ActionResult) (a : ActionResult)
    (h : RespBody.actionsOf (restore env body).2.body = some acts) (ha : a ∈ acts) :
    (a.status = "Skipped" → pyStartsWith a.message "InvalidAMIID" = true) ∧
    (a.status = "Success" ∨ a.status = "Skipped") := by
  rcases restore_run_cases env body with ⟨builds, hg, hlen, heq⟩ | heq | ⟨e, heq⟩
  · rw [heq] at h
    have hok : (restoreGo env (return_image_id builds "aws")).2 = .ok acts :=
      mkResp_actions_inv _ acts h
    rw [restoreGo_eq] at hok
    exact stepGo_skipped_inv _ _ _ acts hok a ha
  · rw [heq] at h
    simp [RespBody.actionsOf] at h
  · rw [heq] at h
    simp [mkResp, RespBody.actionsOf] at h

/-- Skipped rows of a `delete` response carry an `InvalidAMIID`-class code
and always name an image, never a snapshot; every row is `Success` or
`Skipped`. -/
theorem delete_skipped_only (env : Ec2Env) (body : WebhookBody)
    (acts : List ActionResult) (a : ActionResult)
    (h : RespBody.actionsOf (delete env body).2.body = some acts) (ha : a ∈ acts) :
    (a.status = "Skipped" →
      (∃ id, a.target = .ami id) ∧ pyStartsWith a.message "InvalidAMIID" = true) ∧
    (a.status = "Success" ∨ a.status = "Skipped") := by
  rcases delete_run_cases env body with ⟨p, builds, hp, hb, hlen, heq⟩ | heq | ⟨e, heq⟩
  · rw [heq] at h
    have hok : (deleteGo env (return_image_id builds "aws")).2 = .ok acts :=
      mkResp_actions_inv _ acts h
    exact deleteGo_inv env _ acts hok a ha
  · rw [heq] at h
    simp [RespBody.actionsOf] at h
  · rw [heq] at h
    simp [mkResp, RespBody.actionsOf] at h

/-- A failed `complete` loop yields the 500 response with the error text. -/
theorem complete_500 (env : Ec2Env) (body : WebhookBody) (p : Payload)
    (builds : List Build) (e : PyErr)
    (hp : body.eventPayload = some p) (hb : p.builds = some builds)
    (hlen : ¬ (return_image_id builds "aws").length = 0)
    (hgo : (completeGo env p (return_image_id builds "aws")).2 = .error e) :
    (complete env body).2 = ⟨.int 500, .text ("Error: " ++ e.toText)⟩ := by
  simp [complete, hp, hb, hlen, hgo, mkResp]

/-- A failed `revoke` loop yields the 500 response with the error text. -/
theorem revoke_500 (env : Ec2Env) (nowSec : Nat) (body : WebhookBody) (p : Payload)
    (builds : List Build) (e : PyErr)
    (hg : get_builds env body = .ok builds) (hp : body.eventPayload = some p)
    (hlen : ¬ (return_image_id builds "aws").length = 0)
    (hgo : (revokeGo env p (nowSec + 60) (return_image_id builds "aws")).2 = .error e) :
    (revoke env nowSec body).2 = ⟨.int 500, .text ("Error: " ++ e.toText)⟩ := by
  simp [revoke, hg, hp, hlen, hgo, mkResp]

/-- A failed `restore` loop yields the 500 response with the error text. -/
theorem restore_500 (env : Ec2Env) (body : WebhookBody)
    (builds : List Build) (e : PyErr)
    (hg : get_builds env body = .ok builds)
    (hlen : ¬ (return_image_id builds "aws").length = 0)
    (hgo : (restoreGo env (return_image_id builds "aws")).2 = .error e) :
    (restore env body).2 = ⟨.int 500, .text ("Error: " ++ e.toText)⟩ := by
  simp [restore, hg, hlen, hgo, mkResp]

/-- A failed `delete` loop yields the 500 response with the error text. -/
theorem delete_500 (env : Ec2Env) (body : WebhookBody) (p : Payload)
    (builds : List Build) (e : PyErr)
    (hp : body.eventPayload = some p) (hb : p.builds = some builds)
    (hlen : ¬ (return_image_id builds "aws").length = 0)
    (hgo : (deleteGo env (return_image_id builds "aws")).2 = .error e) :
    (delete env body).2 = ⟨.int 500, .text ("Error: " ++ e.toText)⟩ := by
  simp [delete, hp, hb, hlen, hgo, mkResp]

/-- Every call of a revoke step is the deprecation call or the tag call of
that image. -/
theorem revokeStep_calls (env : Ec2Env) (p : Payload) (dep : Nat)
    (ami : ExtractedImage) (c : Ec2Call) (hc : c ∈ (revokeStep env p dep ami).1) :
    c = .enableImageDeprecation ami.region ami.id dep ∨
    c = .createTags ami.region ami.id (revokeTags p) := by
  rcases h1 : env.enableImageDeprecation ami.region ami.id dep with e | u
  · simp only [revokeStep, h1, List.mem_singleton] at hc
    exact Or.inl hc
  · cases u
    rcases h2 : env.createTags ami.region ami.id (revokeTags p) with e2 | u2
    · simp only [revokeStep, h1, h2, List.mem_cons, List.mem_singleton,
        List.not_mem_nil, or_false] at hc
      exact hc
    · cases u2
      simp only [revokeStep, h1, h2, List.mem_cons, List.mem_singleton,
        List.not_mem_nil, or_false] at hc
      exact hc

/-- Every call emitted by `revoke` is a deprecation call at `nowSec + 60`
or a tag call with the revocation tags of the payload. -/
theorem revoke_calls (env : Ec2Env) (nowSec : Nat) (body : WebhookBody)
    (c : Ec2Call) (hc : c ∈ (revoke env nowSec body).1) :
    ∃ (p : Payload) (ami : ExtractedImage), body.eventPayload = some p ∧
      (c = .enableImageDeprecation ami.region ami.id (nowSec + 60) ∨
       c = .createTags ami.region ami.id (revokeTags p)) := by
  rcases revoke_run_cases env nowSec body with ⟨p, builds, hg, hp, hlen, heq⟩ | heq | ⟨e, heq⟩
  · rw [heq] at hc
    have hc2 : c ∈ (revokeGo env p (nowSec + 60) (return_image_id builds "aws")).1 := hc
    rw [revokeGo_eq] at hc2
    obtain ⟨ami, _, hcs⟩ := stepGo_calls _ _ _ c hc2
    exact ⟨p, ami, hp, revokeStep_calls env p (nowSec + 60) ami c hcs⟩
  · rw [heq] at hc
    simp at hc
  · rw [heq] at hc
    simp at hc

/-- Claim C6: every deprecation call `revoke` issues carries the timestamp
`nowSec + 60` — strictly after the start time, by exactly one minute; every
tag call it issues writes exactly the three revocation tags, whose author
and message come from the payload iteration object; and whenever the
deprecation call of an image succeeds, the tag call with exactly those
three tags follows for that image. -/
theorem claimC6 (env : Ec2Env) (nowSec : Nat) (body : WebhookBody) :
    (∀ r a t2, Ec2Call.enableImageDeprecation r a t2 ∈ (revoke env nowSec body).1 →
      t2 = nowSec + 60 ∧ nowSec < t2) ∧
    (∀ r a tags, Ec2Call.createTags r a tags ∈ (revoke env nowSec body).1 →
      ∃ p, body.eventPayload = some p ∧ tags = revokeTags p) ∧
    (∀ (p : Payload) (dep : Nat) (ami : ExtractedImage),
      env.enableImageDeprecation ami.region ami.id dep = .ok () →
      (revokeStep env p dep ami).1 =
        [.enableImageDeprecation ami.region ami.id dep,
         .createTags ami.region ami.id (revokeTags p)]) ∧
    (∀ p : Payload, revokeTags p =
      [("HCPPackerRevoked", "true"),
       ("HCPPackerRevokedBy", p.iteration.revocation_author),
       ("HCPPackerRevocationMessage", p.iteration.revocation_message)]) := by
  refine ⟨?_, ?_, ?_, fun p => rfl⟩
  · intro r a t2 hmem
    obtain ⟨p, ami, hp, hor⟩ := revoke_calls env nowSec body _ hmem
    rcases hor with h | h
    · simp only [Ec2Call.enableImageDeprecation.injEq] at h
      refine ⟨h.2.2, ?_⟩
      rw [h.2.2]
      omega
    · simp at h
  · intro r a tags hmem
    obtain ⟨p, ami, hp, hor⟩ := revoke_calls env nowSec body _ hmem
    rcases hor with h | h
    · simp at h
    · simp only [Ec2Call.createTags.injEq] at h
      exact ⟨p, hp, h.2.2⟩
  · intro p dep ami h
    rcases h2 : env.createTags ami.region ami.id (revokeTags p) with e2 | u2 <;>
      simp [revokeStep, h, h2]

/-- Witness for C6: with the sample body at start time 100, the deprecation
call carries exactly 160. -/
theorem claimC6_witness :
    Ec2Call.enableImageDeprecation "us-east-1" "ami-1" 160 ∈ (revoke envOk 100 bodyW).1 ∧
    (160 : Nat) = 100 + 60 ∧ 100 < 160 :=
  ⟨by decide, (claimC6 envOk 100 bodyW).1 "us-east-1" "ami-1" 160 (by decide)⟩

/-- Claim C10: in `delete` only the deregistration is guarded — every
`Skipped` row of a delete response names an image (never a snapshot) and
carries an `InvalidAMIID`-class code; an error from the snapshot listing
or from a snapshot deletion — whatever its code — aborts the image
processing, and an aborted loop yields the 500 response. -/
theorem claimC10 :
    (∀ (env : Ec2Env) (body : WebhookBody) (acts : List ActionResult) (a : ActionResult),
      RespBody.actionsOf (delete env body).2.body = some acts → a ∈ acts →
      a.status = "Skipped" →
        (∃ id, a.target = .ami id) ∧ pyStartsWith a.message "InvalidAMIID" = true) ∧
    (∀ (env : Ec2Env) (ami : ExtractedImage) (e : PyErr),
      (env.deregisterImage ami.region ami.id = .ok () ∨
        (∃ code t, env.deregisterImage ami.region ami.id = .error (.clientError code t) ∧
          pyStartsWith code "InvalidAMIID" = true)) →
      env.describeSnapshots ami.region (snapshotGlob ami.id) = .error e →
      deleteImage env ami =
        ([Ec2Call.deregisterImage ami.region ami.id,
          Ec2Call.describeSnapshots ami.region (snapshotGlob ami.id)], .error e)) ∧
    (∀ (env : Ec2Env) (ami : ExtractedImage) (sn : Snapshot) (rest : List Snapshot) (e : PyErr),
      (env.deregisterImage ami.region ami.id = .ok () ∨
        (∃ code t, env.deregisterImage ami.region ami.id = .error (.clientError code t) ∧
          pyStartsWith code "InvalidAMIID" = true)) →
      env.describeSnapshots ami.region (snapshotGlob ami.id) = .ok (sn :: rest) →
      env.deleteSnapshot ami.region sn.snapshotId = .error e →
      deleteImage env ami =
        ([Ec2Call.deregisterImage ami.region ami.id,
          Ec2Call.describeSnapshots ami.region (snapshotGlob ami.id),
          Ec2Call.deleteSnapshot ami.region sn.snapshotId], .error e)) ∧
    (∀ (env : Ec2Env) (body : WebhookBody) (p : Payload) (builds : List Build) (e : PyErr),
      body.eventPayload = some p → p.builds = some builds →
      ¬ (return_image_id builds "aws").length = 0 →
      (deleteGo env (return_image_id builds "aws")).2 = .error e →
      (delete env body).2 = ⟨.int 500, .text ("Error: " ++ e.toText)⟩) := by
  refine ⟨?_, ?_, ?_, ?_⟩
  · intro env body acts a h ha hsk
    exact (delete_skipped_only env body acts a h ha).1 hsk
  · intro env ami e hder hdesc
    exact deleteImage_desc_abort env ami e hder hdesc
  · intro env ami sn rest e hder hdesc hdel
    exact deleteImage_snap_abort env ami sn rest e hder hdesc hdel
  · intro env body p builds e hp hb hlen hgo
    exact delete_500 env body p builds e hp hb hlen hgo

/-- Witness for C10: a concrete image whose snapshot listing raises a
generic error aborts after the two calls. -/
theorem claimC10_witness :
    deleteImage envDescribeBoom amiW =
      ([Ec2Call.deregisterImage "us-east-1" "ami-1",
        Ec2Call.describeSnapshots "us-east-1" (snapshotGlob "ami-1")],
       .error (.exn "neterr")) :=
  claimC10.2.1 envDescribeBoom amiW (.exn "neterr") (Or.inl rfl) rfl

/-- Claim C1, counterexample: in `delete`, an `InvalidAMIID`-class client
error raised by the snapshot listing for the image is not recorded as a
`Skipped` row — the invocation aborts with a 500 response carrying only
the error text. -/
theorem claimC1_counterexample :
    delete envInvalidDescribe bodyW =
      ([Ec2Call.deregisterImage "us-east-1" "ami-1",
        Ec2Call.describeSnapshots "us-east-1" "*ami-1*"],
       ⟨.int 500, .text "Error: oops"⟩) ∧
    RespBody.actionsOf (delete envInvalidDescribe bodyW).2.body = none :=
  ⟨by decide, by decide⟩

/-- Claim C1, amended: the classification guards only the per-image
mutation calls inside the per-handler try block.  The three tag-style
loops are instances of the shared loop shape; a guarded call failing with
an `InvalidAMIID`-class client error records `Skipped` with the code as
message and the loop continues, in `delete` a skipped deregistration still
proceeds to the snapshot phase, every other error aborts the loop and the
handler answers 500 with the error text, and a `Skipped` row never arises
in any other way. -/
theorem claimC1 :
    (∀ (env : Ec2Env) (p : Payload) (amis : List ExtractedImage),
      completeGo env p amis =
        stepGo (completeStep env p) (fun _ => "AMI tags added") amis) ∧
    (∀ (env : Ec2Env) (p : Payload) (dep : Nat) (amis : List ExtractedImage),
      revokeGo env p dep amis =
        stepGo (revokeStep env p dep)
          (fun _ => "AMI deprecation time set to " ++ toString dep) amis) ∧
    (∀ (env : Ec2Env) (amis : List ExtractedImage),
      restoreGo env amis =
        stepGo (restoreStep env) (fun _ => "AMI deprecation cleared") amis) ∧
    (∀ (step : ExtractedImage → List Ec2Call × Except PyErr Unit)
        (succMsg : ExtractedImage → String) (ami : ExtractedImage)
        (rest : List ExtractedImage) (code t : String),
      (step ami).2 = .error (.clientError code t) →
      pyStartsWith code "InvalidAMIID" = true →
      stepGo step succMsg (ami :: rest) =
        ((step ami).1 ++ (stepGo step succMsg rest).1,
         (stepGo step succMsg rest).2.map (fun acts =>
           ⟨.ami ami.id, ami.region, "Skipped", code⟩ :: acts))) ∧
    (∀ (step : ExtractedImage → List Ec2Call × Except PyErr Unit)
        (succMsg : ExtractedImage → String) (ami : ExtractedImage)
        (rest : List ExtractedImage) (e : PyErr),
      (step ami).2 = .error e →
      (∀ code t, e = .clientError code t → pyStartsWith code "InvalidAMIID" = false) →
      stepGo step succMsg (ami :: rest) = ((step ami).1, .error e)) ∧
    (∀ (env : Ec2Env) (ami : ExtractedImage) (code t : String) (snaps : List Snapshot),
      env.deregisterImage ami.region ami.id = .error (.clientError code t) →
      pyStartsWith code "InvalidAMIID" = true →
      env.describeSnapshots ami.region (snapshotGlob ami.id) = .ok snaps →
      (∀ s ∈ snaps, env.deleteSnapshot ami.region s.snapshotId = .ok ()) →
      deleteImage env ami =
        (Ec2Call.deregisterImage ami.region ami.id ::
          Ec2Call.describeSnapshots ami.region (snapshotGlob ami.id) ::
          snaps.map (fun s => Ec2Call.deleteSnapshot ami.region s.snapshotId),
         .ok (derSkipRow ami code :: snaps.map (snapRow ami.region ami.id)))) ∧
    (∀ (env : Ec2Env) (body : WebhookBody) (acts : List ActionResult) (a : ActionResult),
      RespBody.actionsOf (complete env body).2.body = some acts → a ∈ acts →
      (a.status = "Skipped" → pyStartsWith a.message "InvalidAMIID" = true) ∧
      (a.status = "Success" ∨ a.status = "Skipped")) ∧
    (∀ (env : Ec2Env) (nowSec : Nat) (body : WebhookBody)
        (acts : List ActionResult) (a : ActionResult),
      RespBody.actionsOf (revoke env nowSec body).2.body = some acts → a ∈ acts →
      (a.status = "Skipped" → pyStartsWith a.message "InvalidAMIID" = true) ∧
      (a.status = "Success" ∨ a.status = "Skipped")) ∧
    (∀ (env : Ec2Env) (body : WebhookBody) (acts : List ActionResult) (a : ActionResult),
      RespBody.actionsOf (restore env body).2.body = some acts → a ∈ acts →
      (a.status = "Skipped" → pyStartsWith a.message "InvalidAMIID" = true) ∧
      (a.status = "Success" ∨ a.status = "Skipped")) ∧
    (∀ (env : Ec2Env) (body : WebhookBody) (acts : List ActionResult) (a : ActionResult),
      RespBody.actionsOf (delete env body).2.body = some acts → a ∈ acts →
      (a.status = "Skipped" → pyStartsWith a.message "InvalidAMIID" = true) ∧
      (a.status = "Success" ∨ a.status = "Skipped")) ∧
    (∀ (env : Ec2Env) (body : WebhookBody) (p : Payload) (builds : List Build) (e : PyErr),
      body.eventPayload = some p → p.builds = some builds →
      ¬ (return_image_id builds "aws").length = 0 →
      (completeGo env p (return_image_id builds "aws")).2 = .error e →
      (complete env body).2 = ⟨.int 500, .text ("Error: " ++ e.toText)⟩) ∧
    (∀ (env : Ec2Env) (nowSec : Nat) (body : WebhookBody) (p : Payload)
        (builds : List Build) (e : PyErr),
      get_builds env body = .ok builds → body.eventPayload = some p →
      ¬ (return_image_id builds "aws").length = 0 →
      (revokeGo env p (nowSec + 60) (return_image_id builds "aws")).2 = .error e →
      (revoke env nowSec body).2 = ⟨.int 500, .text ("Error: " ++ e.toText)⟩) ∧
    (∀ (env : Ec2Env) (body : WebhookBody) (builds : List Build) (e : PyErr),
      get_builds env body = .ok builds →
      ¬ (return_image_id builds "aws").length = 0 →
      (restoreGo env (return_image_id builds "aws")).2 = .error e →
      (restore env body).2 = ⟨.int 500, .text ("Error: " ++ e.toText)⟩) := by
  refine ⟨completeGo_eq, revokeGo_eq, restoreGo_eq, stepGo_skip, stepGo_abort,
    deleteImage_skip_run, ?_, ?_, ?_, ?_, ?_, ?_, ?_⟩
  · intro env body acts a h ha
    exact complete_skipped_only env body acts a h ha
  · intro env nowSec body acts a h ha
    exact revoke_skipped_only env nowSec body acts a h ha
  · intro env body acts a h ha
    exact restore_skipped_only env body acts a h ha
  · intro env body acts a h ha
    obtain ⟨h1, h2⟩ := delete_skipped_only env body acts a h ha
    exact ⟨fun hsk => (h1 hsk).2, h2⟩
  · intro env body p builds e hp hb hlen hgo
    exact complete_500 env body p builds e hp hb hlen hgo
  · intro env nowSec body p builds e hg hp hlen hgo
    exact revoke_500 env nowSec body p builds e hg hp hlen hgo
  · intro env body builds e hg hlen hgo
    exact restore_500 env body builds e hg hlen hgo

/-- Witness for C1: a concrete tag call failing with an
`InvalidAMIID`-class code makes the loop record `Skipped` and continue. -/
theorem claimC1_witness :
    stepGo (completeStep envSkipTags samplePayload) (fun _ => "AMI tags added")
        (amiW :: []) =
      ((completeStep envSkipTags samplePayload amiW).1 ++
        (stepGo (completeStep envSkipTags samplePayload)
          (fun _ => "AMI tags added") []).1,
       (stepGo (completeStep envSkipTags samplePayload)
          (fun _ => "AMI tags added") []).2.map (fun acts =>
         ⟨.ami amiW.id, amiW.region, "Skipped", "InvalidAMIID.NotFound"⟩ :: acts)) :=
  claimC1.2.2.2.1 (completeStep envSkipTags samplePayload)
    (fun _ => "AMI tags added") amiW [] "InvalidAMIID.NotFound" "nope" rfl (by decide)

/-- Claim C7: for every image `delete` processes, deregistration comes
first, then the snapshot listing, then one deletion call and one recorded
row per snapshot whose description contains the image id — and a snapshot
deletion call is issued exactly for the stored snapshots whose description
contains the image id; a skipped deregistration does not prevent the
snapshot phase. -/
theorem claimC7 (env : Ec2Env) (ami : ExtractedImage) (store : List Snapshot)
    (hdesc : env.describeSnapshots ami.region (snapshotGlob ami.id) =
      .ok (snapshotFilter store ami.id))
    (hdel : ∀ s ∈ snapshotFilter store ami.id,
      env.deleteSnapshot ami.region s.snapshotId = .ok ()) :
    (env.deregisterImage ami.region ami.id = .ok () →
      deleteImage env ami =
        (Ec2Call.deregisterImage ami.region ami.id ::
          Ec2Call.describeSnapshots ami.region (snapshotGlob ami.id) ::
          (snapshotFilter store ami.id).map (fun s =>
            Ec2Call.deleteSnapshot ami.region s.snapshotId),
         .ok (derOkRow ami ::
           (snapshotFilter store ami.id).map (snapRow ami.region ami.id)))) ∧
    (∀ code t, env.deregisterImage ami.region ami.id = .error (.clientError code t) →
      pyStartsWith code "InvalidAMIID" = true →
      deleteImage env ami =
        (Ec2Call.deregisterImage ami.region ami.id ::
          Ec2Call.describeSnapshots ami.region (snapshotGlob ami.id) ::
          (snapshotFilter store ami.id).map (fun s =>
            Ec2Call.deleteSnapshot ami.region s.snapshotId),
         .ok (derSkipRow ami code ::
           (snapshotFilter store ami.id).map (snapRow ami.region ami.id)))) ∧
    (env.deregisterImage ami.region ami.id = .ok () →
      ∀ sid, (Ec2Call.deleteSnapshot ami.region sid ∈ (deleteImage env ami).1 ↔
        ∃ s ∈ store, strContains s.description ami.id = true ∧ s.snapshotId = sid)) := by
  refine ⟨?_, ?_, ?_⟩
  · intro hder
    exact deleteImage_ok_run env ami (snapshotFilter store ami.id) hder hdesc hdel
  · intro code t hder hc
    exact deleteImage_skip_run env ami code t (snapshotFilter store ami.id)
      hder hc hdesc hdel
  · intro hder sid
    rw [deleteImage_ok_run env ami (snapshotFilter store ami.id) hder hdesc hdel]
    constructor
    · intro hmem
      rcases List.mem_cons.mp hmem with h | hmem2
      · simp at h
      · rcases List.mem_cons.mp hmem2 with h | hmem3
        · simp at h
        · obtain ⟨sn, hsn, heq⟩ := List.mem_map.mp hmem3
          simp only [Ec2Call.deleteSnapshot.injEq] at heq
          obtain ⟨hstore, hcont⟩ := List.mem_filter.mp hsn
          exact ⟨sn, hstore, hcont, heq.2⟩
    · rintro ⟨sn, hstore, hcont, rfl⟩
      apply List.mem_cons_of_mem
      apply List.mem_cons_of_mem
      exact List.mem_map.mpr ⟨sn, List.mem_filter.mpr ⟨hstore, hcont⟩, rfl⟩

/-- Witness for C7: on the two-snapshot store only the snapshot whose
description mentions the image id is deleted, after deregistration. -/
theorem claimC7_witness :
    deleteImage envC7 amiW =
      (Ec2Call.deregisterImage "us-east-1" "ami-1" ::
        Ec2Call.describeSnapshots "us-east-1" (snapshotGlob "ami-1") ::
        (snapshotFilter storeW "ami-1").map (fun s =>
          Ec2Call.deleteSnapshot "us-east-1" s.snapshotId),
       .ok (derOkRow amiW ::
         (snapshotFilter storeW "ami-1").map (snapRow "us-east-1" "ami-1"))) :=
  (claimC7 envC7 amiW storeW rfl (by decide)).1 rfl

end PackerWebhook
